import Mathlib

/-!
# Verification of the medical_data agent pipeline

Shallow embedding of the agent pipeline of the `medical_data` repository
(`agents/domain_expert.py`, `agents/analytics_specialist.py`,
`agents/cubejs_client.py`, `agents/quality_inspector.py`,
`agents/visualization_specialist.py`, `agents/report_writer.py`) together
with proofs about the embedded operations.

Modelling conventions:
* Python scalar values are embedded as `PyVal` (`None`, `bool`, numbers,
  strings).  Python `int` and `float` are both embedded as rationals; no
  arithmetic other than conversion happens in the modelled code, so this
  is faithful for every modelled operation.
* Python dictionaries with string keys are embedded as insertion-ordered
  association lists (`PyDict` and the generic `alGet`/`alSet`/`alDel`
  helpers).  All dictionaries built by the modelled code have distinct
  keys, which `alSet` preserves.
* LLM round trips are embedded as explicit oracle arguments: `some r`
  models a call whose (parsed) reply is `r`, `none` models any exception
  raised during the call or while parsing its reply.  Handlers return the
  number of LLM calls they made where a claim depends on it.
* `asyncio`/`praval` scheduling is not modelled; each handler is a
  function from its received knowledge (plus oracles) to the list of
  knowledge units it broadcasts, mirroring the single-threaded handler
  bodies.
-/

namespace MedicalData

/-! ## Python value model -/

/-- Embedding of the Python scalar values that flow through the pipeline.
Python `int` and `float` are both embedded as `ℚ` (`num`); the modelled
code never does arithmetic on them, only conversion and comparison. -/
inductive PyVal where
  | none
  | bool (b : Bool)
  | num (q : ℚ)
  | str (s : String)
deriving DecidableEq

/-- Python truthiness of an embedded value (`bool(v)`). -/
def pyTruthy : PyVal → Bool
  | .none => false
  | .bool b => b
  | .num q => q ≠ 0
  | .str s => s ≠ ""

/-- Python `isinstance(v, str)`. -/
def isStrVal : PyVal → Bool
  | .str _ => true
  | _ => false

/-- Python `isinstance(v, (int, float))`.  Note that Python `bool` is a
subclass of `int`, so booleans satisfy this check. -/
def isNumVal : PyVal → Bool
  | .num _ => true
  | .bool _ => true
  | _ => false

/-! ## List-of-characters string utilities

The Lean core `String` functions (`String.splitOn`, `String.replace`, …)
are defined by well-founded recursion on string positions, which the
kernel cannot unfold.  The modelled code only needs a handful of string
operations, re-implemented here by structural recursion so that concrete
instances evaluate by `decide`/`rfl`. -/

/-- Does `l` start with `p`? -/
def listStartsWith : List Char → List Char → Bool
  | _, [] => true
  | [], _ :: _ => false
  | c :: cs, p :: ps => c = p && listStartsWith cs ps

/-- Does `pat` occur as a contiguous substring of the list? -/
def listContainsSub (pat : List Char) : List Char → Bool
  | [] => pat.isEmpty
  | c :: cs => listStartsWith (c :: cs) pat || listContainsSub pat cs

/-- Split on a single-character separator (Python `s.split(sep)` for a
one-character `sep`; always returns at least one piece). -/
def splitChar (sep : Char) : List Char → List (List Char)
  | [] => [[]]
  | c :: cs =>
    if c = sep then [] :: splitChar sep cs
    else
      match splitChar sep cs with
      | [] => [[c]]
      | h :: t => (c :: h) :: t

/-- Fuelled left-to-right non-overlapping replacement (Python
`s.replace(pat, repl)` for a non-empty `pat`). -/
def listReplaceFuel (pat repl : List Char) : Nat → List Char → List Char
  | 0, cs => cs
  | _ + 1, [] => []
  | fuel + 1, c :: cs =>
    if pat ≠ [] && listStartsWith (c :: cs) pat then
      repl ++ listReplaceFuel pat repl fuel ((c :: cs).drop pat.length)
    else
      c :: listReplaceFuel pat repl fuel cs

/-- Python `s.replace(pat, repl)` (for the non-empty patterns used by the
source; an empty pattern is returned unchanged). -/
def strReplace (s pat repl : String) : String :=
  ⟨listReplaceFuel pat.toList repl.toList s.toList.length s.toList⟩

/-- Python `pat in s` (substring containment). -/
def strContains (s pat : String) : Bool :=
  listContainsSub pat.toList s.toList

/-- Python `s.split(sep)` for a one-character separator. -/
def strSplitChar (s : String) (sep : Char) : List String :=
  (splitChar sep s.toList).map (fun cs => ⟨cs⟩)

/-- Python `s.lower()` (ASCII case folding, which covers every key the
source manipulates). -/
def strLower (s : String) : String :=
  ⟨s.toList.map Char.toLower⟩

/-- Python `s.strip()` / `s.trim()` on ASCII whitespace. -/
def strStrip (s : String) : String :=
  ⟨((s.toList.dropWhile Char.isWhitespace).reverse.dropWhile Char.isWhitespace).reverse⟩

/-- Auxiliary for `pyTitle`: the boolean records whether the previous
character was a letter (i.e. whether we are inside a word). -/
def pyTitleAux : Bool → List Char → List Char
  | _, [] => []
  | prev, c :: cs =>
    let cased := c.isAlpha
    let c' := if cased then (if prev then c.toLower else c.toUpper) else c
    c' :: pyTitleAux cased cs

/-- Python `s.title()`: first letter of each word upper-cased, the rest
lower-cased (a word is a maximal run of letters). -/
def pyTitle (s : String) : String :=
  ⟨pyTitleAux false s.toList⟩

/-- Join a list of strings with a separator (Python `sep.join(parts)`). -/
def joinWith (sep : String) : List String → String
  | [] => ""
  | h :: t => t.foldl (fun acc s => acc ++ sep ++ s) h

/-! ## Decimal literal parsing (Python `float(s)`)

`parseP` models Python `float` applied to a string: it accepts an
optionally signed decimal literal with optional fractional part and
optional exponent, surrounded by whitespace, and fails on anything else.
(The special literals `inf`/`nan` and digit-group underscores are outside
the model; no modelled data path produces them.) -/

/-- Numeric value of a digit run. -/
def digitsVal (ds : List Char) : Nat :=
  ds.foldl (fun a c => 10 * a + (c.toNat - 48)) 0

/-- Parse an optionally signed run of digits (used for exponents);
fails if the digit run is empty or trailing characters remain. -/
def parseSignedDigits (cs : List Char) : Option Int :=
  let (sgn, cs) : Int × List Char :=
    match cs with
    | '+' :: rest => (1, rest)
    | '-' :: rest => (-1, rest)
    | _ => (1, cs)
  let ds := cs.takeWhile Char.isDigit
  let rest := cs.dropWhile Char.isDigit
  if ds.isEmpty || !rest.isEmpty then Option.none
  else Option.some (sgn * (digitsVal ds : Int))

/-- Python `float(s)` on finite decimal literals, as an exact rational. -/
def parseFloatQ (s : String) : Option ℚ :=
  let cs := (strStrip s).toList
  let (sgn, cs) : ℚ × List Char :=
    match cs with
    | '+' :: rest => (1, rest)
    | '-' :: rest => (-1, rest)
    | _ => (1, cs)
  let intDigits := cs.takeWhile Char.isDigit
  let cs1 := cs.dropWhile Char.isDigit
  let (fracDigits, cs2) : List Char × List Char :=
    match cs1 with
    | '.' :: rest => (rest.takeWhile Char.isDigit, rest.dropWhile Char.isDigit)
    | _ => ([], cs1)
  if intDigits.isEmpty && fracDigits.isEmpty then Option.none
  else
    let mantissa : ℚ :=
      (digitsVal intDigits : ℚ) + (digitsVal fracDigits : ℚ) / ((10 : ℚ) ^ fracDigits.length)
    match cs2 with
    | [] => Option.some (sgn * mantissa)
    | 'e' :: rest =>
      (parseSignedDigits rest).map fun e => sgn * mantissa * (10 : ℚ) ^ e
    | 'E' :: rest =>
      (parseSignedDigits rest).map fun e => sgn * mantissa * (10 : ℚ) ^ e
    | _ => Option.none

/-- Python `str(v)` on embedded values.  Number rendering: integers render
as their decimal numeral; non-integer rationals render as `num/den`
(Python would render a float decimal expansion — no modelled claim
depends on the numeral shape, only on `str` being a fixed deterministic
function). -/
def pyStr : PyVal → String
  | .none => "None"
  | .bool true => "True"
  | .bool false => "False"
  | .str s => s
  | .num q => if q.den = 1 then toString q.num else toString q.num ++ "/" ++ toString q.den

/-! ## Association lists (Python `dict` with string keys) -/

/-- A Python dictionary value (e.g. a query-result row or a metadata
dictionary): an insertion-ordered association list with distinct keys. -/
abbrev PyDict := List (String × PyVal)

/-- `d.get(k)` on an association list (first matching key). -/
def alGet {β : Type} (l : List (String × β)) (k : String) : Option β :=
  (l.find? fun p => p.1 = k).map (·.2)

/-- `d[k] = v`: overwrite the binding in place if the key exists,
otherwise append (Python dict insertion order). -/
def alSet {β : Type} : List (String × β) → String → β → List (String × β)
  | [], k, v => [(k, v)]
  | (k', v') :: rest, k, v =>
    if k' = k then (k, v) :: rest else (k', v') :: alSet rest k v

/-- `del d[k]`. -/
def alDel {β : Type} (l : List (String × β)) (k : String) : List (String × β) :=
  l.filter fun p => p.1 ≠ k

/-- Update the value stored at an existing key. -/
def alUpdate {β : Type} (l : List (String × β)) (k : String) (f : β → β) :
    List (String × β) :=
  l.map fun p => if p.1 = k then (p.1, f p.2) else p

/-- `d.get(k, v₀)` on a `PyDict`. -/
def dictGetD (d : PyDict) (k : String) (v₀ : PyVal) : PyVal :=
  (alGet d k).getD v₀

/-- Python `set.add` on a list model of a set (ignoring duplicates;
insertion order is irrelevant because the source always sorts before
use). -/
def setAdd (l : List String) (k : String) : List String :=
  if k ∈ l then l else l ++ [k]

/-- Python `sorted` on strings: lexicographic by code points.  Insertion
sort is stable, like Python's sort. -/
def sortStrings (l : List String) : List String :=
  l.insertionSort (· ≤ ·)

/-! ## Visualization Specialist (`agents/visualization_specialist.py`)

`VisualizationSpecialistAgent`: key resolution, label formatting, numeric
coercion, per-archetype chart-spec generators, the `generate_chart_spec`
dispatcher and the LLM-backed `determine_chart_type`. -/

/-- `VisualizationSpecialistAgent._to_number`: safe conversion to float;
`None`, unparsable strings, and non-scalar values coerce to `0.0`.
Booleans are numbers in Python (`float(True) == 1.0`). -/
def toNumber : PyVal → ℚ
  | .none => 0
  | .num q => q
  | .bool b => if b then 1 else 0
  | .str s => (parseFloatQ s).getD 0

/-- `VisualizationSpecialistAgent._get_dimension_key`. -/
def getDimensionKey (row : PyDict) (dimension : String) : String :=
  if (alGet row dimension).isSome then dimension
  else
    let short := (strSplitChar dimension '.').getLastD ""
    if strContains dimension "." && (alGet row short).isSome then short
    else
      match row.find? fun p => isStrVal p.2 with
      | Option.some p => p.1
      | Option.none => ((row.headD ("", .none)).1)

/-- `VisualizationSpecialistAgent._get_measure_key`. -/
def getMeasureKey (row : PyDict) (measure : String) : String :=
  if (alGet row measure).isSome then measure
  else
    let short := (strSplitChar measure '.').getLastD ""
    if strContains measure "." && (alGet row short).isSome then short
    else
      match row.find? fun p => isNumVal p.2 with
      | Option.some p => p.1
      | Option.none => ((row.headD ("", .none)).1)

/-- `VisualizationSpecialistAgent._format_dimension_label`. -/
def formatDimensionLabel (key : String) : String :=
  let key := if strContains key "." then (strSplitChar key '.').getLastD "" else key
  pyTitle (strReplace (strReplace key "_" " ") "." " ")

/-- The abbreviation table of `_format_measure_label`, in source order. -/
def measureLabelReplacements : List (String × String) :=
  [("avg", "Average"), ("tat", "TAT"), ("pct", "%"), ("q1", "Q1"), ("q2", "Q2")]

/-- `VisualizationSpecialistAgent._format_measure_label`.  Note the
source checks containment on the lower-cased label but replaces on the
original label. -/
def formatMeasureLabel (key : String) : String :=
  let key := if strContains key "." then (strSplitChar key '.').getLastD "" else key
  let label := measureLabelReplacements.foldl
    (fun label p =>
      if strContains (strLower label) p.1 then strReplace label p.1 p.2 else label)
    key
  pyTitle (strReplace (strReplace label "_" " ") "." " ")

/-- `VisualizationSpecialistAgent._get_format_type`. -/
def getFormatType (key : String) : String :=
  let k := strLower key
  if strContains k "rate" || strContains k "pct" || strContains k "percentage" then "percent"
  else if strContains k "cost" then "currency"
  else if strContains k "score" || strContains k "tat" then "number"
  else if strContains k "time" then "time"
  else "number"

/-- The fixed 12-entry colour palette of `_generate_donut_chart`
(alpha 0.8). -/
def donutColors : List String :=
  [ "rgba(255, 99, 132, 0.8)", "rgba(54, 162, 235, 0.8)", "rgba(255, 206, 86, 0.8)"
  , "rgba(75, 192, 192, 0.8)", "rgba(153, 102, 255, 0.8)", "rgba(255, 159, 64, 0.8)"
  , "rgba(46, 204, 113, 0.8)", "rgba(142, 68, 173, 0.8)", "rgba(241, 196, 15, 0.8)"
  , "rgba(231, 76, 60, 0.8)", "rgba(52, 73, 94, 0.8)", "rgba(26, 188, 156, 0.8)" ]

/-- The fixed 12-entry colour palette of `_generate_bar_chart`
(alpha 0.8; textually identical to `donutColors` in the source, kept as a
separate definition because the source declares it separately). -/
def barColors : List String := donutColors

/-- The fixed 12-entry colour palette of `_generate_grouped_bar_chart`
(alpha 0.7). -/
def groupedColors : List String :=
  [ "rgba(255, 99, 132, 0.7)", "rgba(54, 162, 235, 0.7)", "rgba(255, 206, 86, 0.7)"
  , "rgba(75, 192, 192, 0.7)", "rgba(153, 102, 255, 0.7)", "rgba(255, 159, 64, 0.7)"
  , "rgba(46, 204, 113, 0.7)", "rgba(142, 68, 173, 0.7)", "rgba(241, 196, 15, 0.7)"
  , "rgba(231, 76, 60, 0.7)", "rgba(52, 73, 94, 0.7)", "rgba(26, 188, 156, 0.7)" ]

/-- One column descriptor of a table specification.  `format` is present
only on measure columns, as in the source. -/
structure TableColumn where
  key : String
  label : String
  colType : String
  format : Option String
deriving DecidableEq

/-- One dataset of a grouped-bar specification (single colour per
series). -/
structure GroupDataset where
  label : String
  data : List ℚ
  backgroundColor : String
  borderColor : String
deriving DecidableEq

/-- Embedding of the Chart.js specification dictionaries returned by the
generators.  Constant fields of the source dictionaries (`borderWidth`,
`responsive`, `sortable`, `pageSize`, legend placement, `beginAtZero`)
are omitted; every data-dependent field is kept.  `groupedBar` renders as
`"type": "bar"` in the source dictionary, recorded by `typeField`.
`unknown` is the `{"type": "unknown"}` placeholder the Report Writer
substitutes for a missing `chart_spec`. -/
inductive ChartSpec where
  | empty (message : String)
  | kpi (value : PyVal) (label : String) (format : String)
  | table (columns : List TableColumn) (data : List PyDict)
  | bar (labels : List String) (dsLabel : String) (values : List ℚ)
      (backgroundColor borderColor : List String) (title yTitle xTitle : String)
  | donut (labels : List String) (dsLabel : String) (values : List ℚ)
      (backgroundColor : List String) (title : String)
  | groupedBar (labels : List String) (datasets : List GroupDataset)
      (title yTitle xTitle : String)
  | line (labels : List String) (dsLabel : String) (values : List ℚ)
      (title yTitle : String)
  | unknown
deriving DecidableEq

/-- The `"type"` entry of the underlying dictionary. -/
def ChartSpec.typeField : ChartSpec → String
  | .empty _ => "empty"
  | .kpi _ _ _ => "kpi"
  | .table _ _ => "table"
  | .bar _ _ _ _ _ _ _ _ => "bar"
  | .donut _ _ _ _ _ => "donut"
  | .groupedBar _ _ _ _ _ => "bar"
  | .line _ _ _ _ _ => "line"
  | .unknown => "unknown"

/-- The x-axis label list of a spec (`data.labels`), `[]` for archetypes
without one. -/
def ChartSpec.labelList : ChartSpec → List String
  | .bar labels _ _ _ _ _ _ _ => labels
  | .donut labels _ _ _ _ => labels
  | .groupedBar labels _ _ _ _ => labels
  | .line labels _ _ _ _ => labels
  | _ => []

/-- The value list of a single-series spec (`data.datasets[0].data`). -/
def ChartSpec.valueList : ChartSpec → List ℚ
  | .bar _ _ values _ _ _ _ _ => values
  | .donut _ _ values _ _ => values
  | .line _ _ values _ _ => values
  | _ => []

/-- The background-colour list of a single-series spec. -/
def ChartSpec.bgColors : ChartSpec → List String
  | .bar _ _ _ bg _ _ _ _ => bg
  | .donut _ _ _ bg _ => bg
  | _ => []

/-- The dataset list of a grouped-bar spec. -/
def ChartSpec.groupDatasets : ChartSpec → List GroupDataset
  | .groupedBar _ ds _ _ _ => ds
  | _ => []

/-- Is the spec a table specification? -/
def ChartSpec.isTable : ChartSpec → Bool
  | .table _ _ => true
  | _ => false

/-- `VisualizationSpecialistAgent._generate_donut_chart`.  Note the
background colours are the palette *prefix* `colors[:len(values)]`, not a
modular indexing. -/
def generateDonutChart (data : List PyDict) (dimensions measures : List String) :
    ChartSpec :=
  if data.isEmpty || dimensions.isEmpty || measures.isEmpty then
    .empty "Insufficient data"
  else
    let row0 := data.headD []
    let labelKey := getDimensionKey row0 (dimensions.headD "")
    let valueKey := getMeasureKey row0 (measures.headD "")
    let labels := data.map fun row => pyStr (dictGetD row labelKey (.str ""))
    let values := data.map fun row => toNumber (dictGetD row valueKey .none)
    .donut labels (formatMeasureLabel valueKey) values
      (donutColors.take values.length)
      (formatMeasureLabel valueKey ++ " by " ++ formatDimensionLabel labelKey)

/-- `VisualizationSpecialistAgent._generate_kpi_card`. -/
def generateKpiCard (data : List PyDict) (measures : List String) : ChartSpec :=
  if data.isEmpty then .empty "No data"
  else
    let row := data.headD []
    let firstMeasure := measures.headD ""
    let measureKey := getMeasureKey row firstMeasure
    .kpi (dictGetD row measureKey (.num 0)) (formatMeasureLabel measureKey)
      (getFormatType measureKey)

/-- `VisualizationSpecialistAgent._generate_table`. -/
def generateTable (data : List PyDict) (dimensions measures : List String) :
    ChartSpec :=
  if data.isEmpty then .empty "No data"
  else
    let row0 := data.headD []
    let dimColumns := dimensions.map fun dim =>
      let k := getDimensionKey row0 dim
      TableColumn.mk k (formatDimensionLabel k) "string" Option.none
    let measureColumns := measures.map fun m =>
      let k := getMeasureKey row0 m
      TableColumn.mk k (formatMeasureLabel k) "number" (Option.some (getFormatType k))
    .table (dimColumns ++ measureColumns) data

/-- `VisualizationSpecialistAgent._generate_bar_chart`.  Each bar's colour
is `bar_colors[i % len(bar_colors)]`, a function of the row index alone. -/
def generateBarChart (data : List PyDict) (dimensions measures : List String) :
    ChartSpec :=
  if data.isEmpty || dimensions.isEmpty || measures.isEmpty then
    .empty "Insufficient data"
  else
    let row0 := data.headD []
    let xKey := getDimensionKey row0 (dimensions.headD "")
    let yKey := getMeasureKey row0 (measures.headD "")
    let labels := data.map fun row => pyStr (dictGetD row xKey (.str ""))
    let values := data.map fun row => toNumber (dictGetD row yKey .none)
    let colorsForBars :=
      (List.range values.length).map fun i => barColors.getD (i % barColors.length) ""
    let borderColors := colorsForBars.map fun c => strReplace c "0.8" "1"
    .bar labels (formatMeasureLabel yKey) values colorsForBars borderColors
      (formatMeasureLabel yKey ++ " by " ++ formatDimensionLabel xKey)
      (formatMeasureLabel yKey) (formatDimensionLabel xKey)

/-- The accumulator of the grouping loop of
`_generate_grouped_bar_chart`: the nested dict `grouped_data` and the set
`group_names` (as an insertion-ordered duplicate-free list). -/
def groupFoldStep (xKey groupKey yKey : String)
    (acc : List (String × List (String × ℚ)) × List String) (row : PyDict) :
    List (String × List (String × ℚ)) × List String :=
  let xVal := pyStr (dictGetD row xKey (.str ""))
  let groupVal := pyStr (dictGetD row groupKey (.str ""))
  let yVal := toNumber (dictGetD row yKey .none)
  let inner := (alGet acc.1 xVal).getD []
  (alSet acc.1 xVal (alSet inner groupVal yVal), setAdd acc.2 groupVal)

/-- `VisualizationSpecialistAgent._generate_grouped_bar_chart`.  With
fewer than two dimensions (or no data / no measures) it delegates to the
simple bar chart.  The missing-cell lookup
`grouped_data.get(label, {}).get(group_name)` yields `None`, and
`_to_number(None) = 0`; stored cells already hold floats, on which
`_to_number` is the identity. -/
def generateGroupedBarChart (data : List PyDict) (dimensions measures : List String) :
    ChartSpec :=
  if data.isEmpty || dimensions.length < 2 || measures.isEmpty then
    generateBarChart data dimensions measures
  else
    let row0 := data.headD []
    let xKey := getDimensionKey row0 (dimensions.headD "")
    let groupKey := getDimensionKey row0 (dimensions.getD 1 "")
    let yKey := getMeasureKey row0 (measures.headD "")
    let grouped := data.foldl (groupFoldStep xKey groupKey yKey) ([], [])
    let labels := sortStrings (grouped.1.map Prod.fst)
    let groupNamesList := sortStrings grouped.2
    let datasets := groupNamesList.enum.map fun p =>
      let color := groupedColors.getD (p.1 % groupedColors.length) ""
      -- the source replaces "0.6", which does not occur in the 0.7 palette
      let borderColor := strReplace color "0.6" "1"
      let values := labels.map fun label =>
        match alGet grouped.1 label with
        | Option.some inner => ((alGet inner p.2).getD 0)
        | Option.none => 0
      GroupDataset.mk p.2 values color borderColor
    .groupedBar labels datasets
      (formatMeasureLabel yKey ++ " by " ++ formatDimensionLabel xKey ++ " and "
        ++ formatDimensionLabel groupKey)
      (formatMeasureLabel yKey) (formatDimensionLabel xKey)

/-- `VisualizationSpecialistAgent._generate_line_chart`. -/
def generateLineChart (data : List PyDict) (dimensions measures : List String) :
    ChartSpec :=
  if data.isEmpty || dimensions.isEmpty || measures.isEmpty then
    .empty "Insufficient data"
  else
    let row0 := data.headD []
    let xKey := getDimensionKey row0 (dimensions.headD "")
    let yKey := getMeasureKey row0 (measures.headD "")
    let labels := data.map fun row => pyStr (dictGetD row xKey (.str ""))
    let values := data.map fun row => toNumber (dictGetD row yKey .none)
    .line labels (formatMeasureLabel yKey) values
      (formatMeasureLabel yKey ++ " over Time") (formatMeasureLabel yKey)

/-- `VisualizationSpecialistAgent.generate_chart_spec`: the pure
dispatcher over the archetype string.  `metadata` is accepted and, as in
the source, never consulted.  Any unrecognized archetype falls through to
the table generator. -/
def generateChartSpec (data : List PyDict) (measures dimensions : List String)
    (chartType : String) (metadata : PyDict) : ChartSpec :=
  let _ := metadata
  if chartType = "empty" then .empty "No data available for this query"
  else if chartType = "kpi" then generateKpiCard data measures
  else if chartType = "table" then generateTable data dimensions measures
  else if chartType = "bar" then generateBarChart data dimensions measures
  else if chartType = "grouped_bar" then generateGroupedBarChart data dimensions measures
  else if chartType = "line" then generateLineChart data dimensions measures
  else if chartType = "donut" then generateDonutChart data dimensions measures
  else generateTable data dimensions measures

/-- `VisualizationSpecialistAgent.determine_chart_type`.  `llm = some ct`
models a successful LLM round trip whose parsed reply has chart type `ct`
(the dictionary default `"table"` already applied); `llm = none` models
any exception during the call.  The returned boolean records whether the
LLM service was invoked.  `row_count` is read from the metadata
dictionary with default `0` and compared with Python `==`/`<=`; the
fallback heuristic is `1 → kpi`, `≤ 10 → bar`, otherwise `table`. -/
def determineChartType (data : List PyDict) (measures dimensions : List String)
    (metadata : PyDict) (llm : Option String) : String × Bool :=
  let _ := data
  let _ := measures
  let _ := dimensions
  let rowCount := dictGetD metadata "row_count" (.num 0)
  if rowCount = .num 0 then ("empty", false)
  else
    match llm with
    | Option.some ct => (ct, true)
    | Option.none =>
      if rowCount = .num 1 then ("kpi", true)
      else if (match rowCount with
               | .num q => decide (q ≤ 10)
               | .bool b => decide ((if b then (1 : ℚ) else 0) ≤ 10)
               | _ => false) then ("bar", true)
      else ("table", true)

/-! ## Query Planner (`agents/domain_expert.py`)

`DomainExpertAgent.analyze_query`: LLM classification of the user
message, followed by deterministic validation/normalization of the
returned dimension and metric names. -/

/-- The `valid_dimensions` set of `analyze_query`. -/
def validDimensions : List String :=
  [ "caseId", "srNo", "modality", "subSpecialty", "bodyPartCategory"
  , "bodyPart", "studyDescription", "scanType", "instituteName"
  , "unitIdentifier", "originalRadiologist", "reviewer", "secondReview"
  , "finalOutput", "starRating", "gender", "ageCohort", "age"
  , "unableToAudit", "requiredReaudit", "comments", "reportDate"
  , "scanDate", "uploadDate", "assignDate", "reviewDate" ]

/-- The `dimension_aliases` table of `analyze_query`. -/
def dimensionAliases : List (String × String) :=
  [ ("cat_rating", "finalOutput"), ("cat", "finalOutput"), ("catRating", "finalOutput")
  , ("quality_category", "finalOutput"), ("peerReviewCategory", "finalOutput")
  , ("body_part", "bodyPart"), ("body_part_category", "bodyPartCategory")
  , ("sub_specialty", "subSpecialty"), ("subspecialty", "subSpecialty")
  , ("radiologist", "originalRadiologist"), ("original_radiologist", "originalRadiologist")
  , ("institute", "instituteName"), ("hospital", "instituteName")
  , ("age_cohort", "ageCohort"), ("ageGroup", "ageCohort"), ("age_group", "ageCohort")
  , ("star", "starRating"), ("stars", "starRating")
  , ("scan_type", "scanType"), ("imaging_type", "modality")
  , ("sex", "gender"), ("patient_gender", "gender") ]

/-- The `valid_metrics` set of `analyze_query`. -/
def validMetrics : List String :=
  [ "count", "avgQualityScore", "avgSafetyScore", "avgProductivityScore"
  , "avgEfficiencyScore", "avgStarScore", "avgStarRating", "avgAge"
  , "avgAssignTat", "avgReviewTat", "cat1Count", "cat2Count", "cat3Count"
  , "cat4Count", "cat5Count", "highQualityRate", "reauditCount"
  , "avgQ1", "avgQ2", "avgQ3", "avgQ4", "avgQ5", "avgQ6", "avgQ7"
  , "avgQ8", "avgQ9", "avgQ10", "avgQ11", "avgQ12Q", "avgQ12S"
  , "avgQ13", "avgQ14", "avgQ15", "avgQ16", "avgQ17" ]

/-- The `metric_aliases` table of `analyze_query`. -/
def metricAliases : List (String × String) :=
  [ ("total", "count"), ("cases", "count"), ("number", "count")
  , ("quality_score", "avgQualityScore"), ("quality", "avgQualityScore")
  , ("safety_score", "avgSafetyScore"), ("safety", "avgSafetyScore")
  , ("productivity_score", "avgProductivityScore"), ("productivity", "avgProductivityScore")
  , ("efficiency_score", "avgEfficiencyScore"), ("efficiency", "avgEfficiencyScore")
  , ("star_rating", "avgStarRating"), ("stars", "avgStarRating")
  , ("avg_age", "avgAge"), ("average_age", "avgAge") ]

/-- A time range dictionary (`time_range` of the planner reply);
`start`/`stop` model `time_range.get("start")` / `time_range.get("end")`
(`end` is a Lean keyword). -/
structure TimeRange where
  start : Option String
  stop : Option String
deriving DecidableEq

/-- A value of the planner's `filters` dictionary, one constructor per
branch of the filter-building loop of `build_cube_query`: a dict carrying
an `"operator"` key, a list, or a scalar. -/
inductive FilterVal where
  | opObj (op : String) (val : PyVal)
  | listV (vs : List PyVal)
  | scalar (v : PyVal)
deriving DecidableEq

/-- The parsed JSON reply of the planner LLM, with the `result.get`
defaults of `analyze_query` already applied by the oracle boundary
(`metrics` defaults to `["count"]`, `dimensions` to `[]`, `is_rejected`
to `False`, `cube_recommendation` to `"RadiologyAudits"`, `filters` to
`{}`, `time_range` and `rejection_reason` to `None`, `analysis_type` to
`"summary"`). -/
structure PlannerReply where
  isRejected : PyVal
  rejectionReason : PyVal
  cubeRecommendation : String
  metrics : List String
  dimensions : List String
  filters : List (String × FilterVal)
  timeRange : Option TimeRange
  analysisType : String
deriving DecidableEq

/-- The `domain_enriched_request` knowledge unit broadcast by the
planner (`part_families` is always `[]`, kept for fidelity). -/
structure EnrichedRequest where
  isRejected : PyVal
  rejectionReason : PyVal
  cubeRecommendation : String
  metrics : List String
  dimensions : List String
  filters : List (String × FilterVal)
  timeRange : Option TimeRange
  partFamilies : List String
  analysisType : String
  userMessage : String
  sessionId : String
deriving DecidableEq

/-- The dimension-validation loop of `analyze_query`: known names kept,
aliases normalized, unknown names dropped. -/
def validateDimensions (raw : List String) : List String :=
  raw.foldl
    (fun acc dim =>
      if dim ∈ validDimensions then acc ++ [dim]
      else
        match alGet dimensionAliases dim with
        | Option.some d => acc ++ [d]
        | Option.none => acc)
    []

/-- The metric-validation loop of `analyze_query`: known names kept,
aliases normalized, an unknown name contributes a single `"count"`
default (only if not already present). -/
def validateMetrics (raw : List String) : List String :=
  raw.foldl
    (fun acc m =>
      if m ∈ validMetrics then acc ++ [m]
      else
        match alGet metricAliases m with
        | Option.some mm => acc ++ [mm]
        | Option.none => if "count" ∈ acc then acc else acc ++ ["count"])
    []

/-- `DomainExpertAgent.analyze_query`.  `oracle = some r` models a
successful LLM call with parsed reply `r`; `oracle = none` models any
exception (LLM failure or malformed JSON), which produces the fixed
fallback request.  After validation, an empty metric list is replaced by
`["count"]`. -/
def analyzeQuery (oracle : Option PlannerReply) (message sessionId : String) :
    EnrichedRequest :=
  match oracle with
  | Option.none =>
    { isRejected := .bool false, rejectionReason := .none
    , cubeRecommendation := "RadiologyAudits", metrics := ["count"], dimensions := []
    , filters := [], timeRange := Option.none, partFamilies := []
    , analysisType := "summary", userMessage := message, sessionId := sessionId }
  | Option.some r =>
    let validatedDimensions := validateDimensions r.dimensions
    let validatedMetrics₀ := validateMetrics r.metrics
    let validatedMetrics :=
      if validatedMetrics₀.isEmpty then ["count"] else validatedMetrics₀
    { isRejected := r.isRejected, rejectionReason := r.rejectionReason
    , cubeRecommendation := r.cubeRecommendation, metrics := validatedMetrics
    , dimensions := validatedDimensions, filters := r.filters
    , timeRange := r.timeRange, partFamilies := []
    , analysisType := r.analysisType, userMessage := message, sessionId := sessionId }

/-! ## Analytics Specialist (`agents/analytics_specialist.py` and
`agents/cubejs_client.py`) -/

/-- The `METRIC_MAPPING` table (cube `RadiologyAudits` is the only entry;
the source's duplicated `"avg_age"` key collapses to one binding, as in a
Python dict literal). -/
def radiologyMetricMapping : List (String × String) :=
  [ ("count", "RadiologyAudits.count")
  , ("avgQualityScore", "RadiologyAudits.avgQualityScore")
  , ("quality_score", "RadiologyAudits.avgQualityScore")
  , ("quality", "RadiologyAudits.avgQualityScore")
  , ("avgSafetyScore", "RadiologyAudits.avgSafetyScore")
  , ("safety_score", "RadiologyAudits.avgSafetyScore")
  , ("safety", "RadiologyAudits.avgSafetyScore")
  , ("avgProductivityScore", "RadiologyAudits.avgProductivityScore")
  , ("productivity_score", "RadiologyAudits.avgProductivityScore")
  , ("productivity", "RadiologyAudits.avgProductivityScore")
  , ("avgEfficiencyScore", "RadiologyAudits.avgEfficiencyScore")
  , ("efficiency_score", "RadiologyAudits.avgEfficiencyScore")
  , ("efficiency", "RadiologyAudits.avgEfficiencyScore")
  , ("avgStarScore", "RadiologyAudits.avgStarScore")
  , ("star_score", "RadiologyAudits.avgStarScore")
  , ("avgStarRating", "RadiologyAudits.avgStarRating")
  , ("star_rating", "RadiologyAudits.avgStarRating")
  , ("stars", "RadiologyAudits.avgStarRating")
  , ("cat5Count", "RadiologyAudits.cat5Count")
  , ("cat5", "RadiologyAudits.cat5Count")
  , ("cat4Count", "RadiologyAudits.cat4Count")
  , ("cat4", "RadiologyAudits.cat4Count")
  , ("cat3Count", "RadiologyAudits.cat3Count")
  , ("cat3", "RadiologyAudits.cat3Count")
  , ("cat2Count", "RadiologyAudits.cat2Count")
  , ("cat2", "RadiologyAudits.cat2Count")
  , ("cat1Count", "RadiologyAudits.cat1Count")
  , ("cat1", "RadiologyAudits.cat1Count")
  , ("highQualityRate", "RadiologyAudits.highQualityRate")
  , ("high_quality_rate", "RadiologyAudits.highQualityRate")
  , ("reauditCount", "RadiologyAudits.reauditCount")
  , ("reaudit_count", "RadiologyAudits.reauditCount")
  , ("avgAge", "RadiologyAudits.avgAge")
  , ("avg_age", "RadiologyAudits.avgAge") ]

/-- `METRIC_MAPPING.get(cube_name, {})`. -/
def metricMapping (cube : String) : List (String × String) :=
  if cube = "RadiologyAudits" then radiologyMetricMapping else []

/-- The `DIMENSION_MAPPING` table (cube `RadiologyAudits`; the source's
duplicated `"requiredReaudit"` key collapses to one binding). -/
def radiologyDimensionMapping : List (String × String) :=
  [ ("modality", "RadiologyAudits.modality")
  , ("sub_specialty", "RadiologyAudits.subSpecialty")
  , ("subSpecialty", "RadiologyAudits.subSpecialty")
  , ("subspecialty", "RadiologyAudits.subSpecialty")
  , ("body_part_category", "RadiologyAudits.bodyPartCategory")
  , ("bodyPartCategory", "RadiologyAudits.bodyPartCategory")
  , ("body_part", "RadiologyAudits.bodyPartCategory")
  , ("bodyPart", "RadiologyAudits.bodyPart")
  , ("original_radiologist", "RadiologyAudits.originalRadiologist")
  , ("originalRadiologist", "RadiologyAudits.originalRadiologist")
  , ("radiologist", "RadiologyAudits.originalRadiologist")
  , ("reviewer", "RadiologyAudits.reviewer")
  , ("review_radiologist", "RadiologyAudits.reviewer")
  , ("final_output", "RadiologyAudits.finalOutput")
  , ("finalOutput", "RadiologyAudits.finalOutput")
  , ("cat_rating", "RadiologyAudits.finalOutput")
  , ("cat", "RadiologyAudits.finalOutput")
  , ("star_rating", "RadiologyAudits.starRating")
  , ("starRating", "RadiologyAudits.starRating")
  , ("star", "RadiologyAudits.starRating")
  , ("gender", "RadiologyAudits.gender")
  , ("age", "RadiologyAudits.age")
  , ("age_cohort", "RadiologyAudits.ageCohort")
  , ("ageCohort", "RadiologyAudits.ageCohort")
  , ("scan_type", "RadiologyAudits.scanType")
  , ("scanType", "RadiologyAudits.scanType")
  , ("institute_name", "RadiologyAudits.instituteName")
  , ("instituteName", "RadiologyAudits.instituteName")
  , ("unit_identifier", "RadiologyAudits.unitIdentifier")
  , ("unitIdentifier", "RadiologyAudits.unitIdentifier")
  , ("second_review", "RadiologyAudits.secondReview")
  , ("secondReview", "RadiologyAudits.secondReview")
  , ("required_reaudit", "RadiologyAudits.requiredReaudit")
  , ("requiredReaudit", "RadiologyAudits.requiredReaudit") ]

/-- `DIMENSION_MAPPING.get(cube_name, {})`. -/
def dimensionMapping (cube : String) : List (String × String) :=
  if cube = "RadiologyAudits" then radiologyDimensionMapping else []

/-- One Cube.js filter dictionary.  `values` keeps the embedded Python
values: the scalar and operator branches insert `str(...)` strings, the
list branch passes the list through unchanged, as in the source. -/
structure CubeFilter where
  member : String
  op : String
  values : List PyVal
deriving DecidableEq

/-- One Cube.js time dimension dictionary. -/
structure TimeDimension where
  dimension : String
  dateRange : List (Option String)
deriving DecidableEq

/-- The `CubeQuery` pydantic model (the `order` field, never set by the
modelled code, is omitted). -/
structure CubeQuery where
  measures : List String
  dimensions : Option (List String)
  filters : Option (List CubeFilter)
  timeDimensions : Option (List TimeDimension)
  limit : Nat
deriving DecidableEq

/-- `AnalyticsSpecialistAgent.build_cube_query`. -/
def buildCubeQuery (req : EnrichedRequest) : CubeQuery :=
  let cubeName :=
    if strContains req.cubeRecommendation "|" then
      strStrip ((strSplitChar req.cubeRecommendation '|').headD "")
    else req.cubeRecommendation
  let metricMap := metricMapping cubeName
  let measures₀ := req.metrics.foldl
    (fun acc metric =>
      match alGet metricMap metric with
      | Option.some m => acc ++ [m]
      | Option.none => acc)
    []
  let measures :=
    if measures₀.isEmpty then [(alGet metricMap "count").getD (cubeName ++ ".count")]
    else measures₀
  let dimensionMap := dimensionMapping cubeName
  let cubeDimensions := req.dimensions.foldl
    (fun acc dim =>
      match alGet dimensionMap dim with
      | Option.some d => acc ++ [d]
      | Option.none => acc)
    []
  let partFamilyFilters :=
    if !req.partFamilies.isEmpty then
      match alGet dimensionMap "part_family" with
      | Option.some d =>
        [CubeFilter.mk d (if req.partFamilies.length = 1 then "equals" else "contains")
          (req.partFamilies.map PyVal.str)]
      | Option.none => []
    else []
  let filters := req.filters.foldl
    (fun acc kv =>
      match alGet dimensionMap kv.1 with
      | Option.none => acc
      | Option.some mappedDim =>
        match kv.2 with
        | .opObj op val =>
          acc ++ [CubeFilter.mk mappedDim op
            (if val = .none then [] else [.str (pyStr val)])]
        | .listV vs => acc ++ [CubeFilter.mk mappedDim "contains" vs]
        | .scalar v => acc ++ [CubeFilter.mk mappedDim "equals" [.str (pyStr v)]])
    partFamilyFilters
  let timeDimensions :=
    match req.timeRange with
    | Option.some tr =>
      [TimeDimension.mk (cubeName ++ ".productionDate") [tr.start, tr.stop]]
    | Option.none => []
  { measures := measures
  , dimensions := if cubeDimensions.isEmpty then Option.none else Option.some cubeDimensions
  , filters := if filters.isEmpty then Option.none else Option.some filters
  , timeDimensions := if timeDimensions.isEmpty then Option.none else Option.some timeDimensions
  , limit := 1000 }

/-- A Python exception class raised out of `CubeJSClient.execute_query`
and caught by the analytics handler. -/
inductive PyErr where
  | valueError (msg : String)
  | connectionError (msg : String)
  | otherError (msg : String)
deriving DecidableEq

/-- The outcome of the HTTP round trip inside
`CubeJSClient.execute_query`: a parsed response body (its `"data"` list),
an HTTP error status (`httpx.HTTPStatusError`), or a transport failure
(`httpx.RequestError`). -/
inductive HttpxOutcome where
  | ok (data : List PyDict)
  | statusErr (code : Nat) (text : String)
  | requestErr (msg : String)
deriving DecidableEq

/-- `CubeJSClient.execute_query`: HTTP status errors are re-raised as
`ValueError`, transport errors as `ConnectionError`. -/
def clientExecuteQuery (outcome : HttpxOutcome) : Except PyErr (List PyDict) :=
  match outcome with
  | .ok data => .ok data
  | .statusErr _ text => .error (.valueError ("Cube.js query failed: " ++ text))
  | .requestErr msg => .error (.connectionError ("Cannot connect to Cube.js: " ++ msg))

/-- The `data_ready` knowledge unit. -/
structure DataReady where
  queryResults : List PyDict
  cubeUsed : String
  measures : List String
  dimensions : List String
  rowCount : Nat
  queryTimeMs : Nat
  sessionId : String
  metadata : PyDict
deriving DecidableEq

/-- `AnalyticsSpecialistAgent._extract_cube_name`. -/
def extractCubeName (measure : String) : String :=
  if strContains measure "." then (strSplitChar measure '.').headD ""
  else "PressOperations"

/-- `AnalyticsSpecialistAgent._analyze_data_shape`.  The
`category_counts` entry — a nested dictionary of per-dimension distinct
value counts that no downstream handler ever reads — is omitted, since
the flat `PyVal` model has no nested-dict constructor; every entry a
downstream handler consults (`row_count` in particular) is kept. -/
def analyzeDataShape (data : List PyDict) (query : CubeQuery) : PyDict :=
  if data.isEmpty then [("data_shape", .str "empty"), ("row_count", .num 0)]
  else
    let hasTimeSeries :=
      match query.timeDimensions with
      | Option.some tds => !tds.isEmpty
      | Option.none => false
    let hasMultipleDimensions :=
      match query.dimensions with
      | Option.some ds => decide (1 < ds.length)
      | Option.none => false
    [ ("data_shape", .str (if hasTimeSeries then "time_series" else "table"))
    , ("row_count", .num data.length)
    , ("column_count", .num (data.headD []).length)
    , ("has_time_series", .bool hasTimeSeries)
    , ("has_multiple_dimensions", .bool hasMultipleDimensions) ]

/-- `AnalyticsSpecialistAgent.execute_query`: executes the query through
the client and assembles the `data_ready` payload; client exceptions
propagate (they are caught by the handler).  `queryTimeMs` is the
measured wall-clock time, a handler input here. -/
def executeQuerySpec (outcome : HttpxOutcome) (queryTimeMs : Nat)
    (query : CubeQuery) (sessionId : String) : Except PyErr DataReady :=
  match clientExecuteQuery outcome with
  | .error e => .error e
  | .ok queryResults =>
    .ok
      { queryResults := queryResults
      , cubeUsed := extractCubeName (query.measures.headD "")
      , measures := query.measures
      , dimensions := (query.dimensions).getD []
      , rowCount := queryResults.length
      , queryTimeMs := queryTimeMs
      , sessionId := sessionId
      , metadata := analyzeDataShape queryResults query }

/-- The `data_ready` unit broadcast for a rejected query. -/
def rejectedDataReady (sessionId : String) (rejectionReason : PyVal) : DataReady :=
  { queryResults := [], cubeUsed := "None", measures := [], dimensions := []
  , rowCount := 0, queryTimeMs := 0, sessionId := sessionId
  , metadata := [("is_rejected", .bool true), ("rejection_reason", rejectionReason)] }

/-- The `data_ready` unit broadcast from an `except` branch of the
analytics handler. -/
def errorDataReady (sessionId : String) (errMsg errType : String) : DataReady :=
  { queryResults := [], cubeUsed := "Error", measures := [], dimensions := []
  , rowCount := 0, queryTimeMs := 0, sessionId := sessionId
  , metadata := [("error", .str errMsg), ("error_type", .str errType)] }

/-- `analytics_specialist_handler` on a `domain_enriched_request` spore
(the `query_refinement_needed` branch broadcasts nothing and is not
modelled).  A rejected request short-circuits to an empty, tagged result;
otherwise the query is built and executed, and each exception class is
converted to an empty, error-tagged result instead of propagating. -/
def analyticsHandler (knowledge : EnrichedRequest) (outcome : HttpxOutcome)
    (queryTimeMs : Nat) : List DataReady :=
  if pyTruthy knowledge.isRejected then
    [rejectedDataReady knowledge.sessionId knowledge.rejectionReason]
  else
    match executeQuerySpec outcome queryTimeMs (buildCubeQuery knowledge)
        knowledge.sessionId with
    | .ok dataReady => [dataReady]
    | .error (.valueError msg) =>
      [errorDataReady knowledge.sessionId msg "query_error"]
    | .error (.connectionError _) =>
      [errorDataReady knowledge.sessionId "Cannot connect to data service" "connection_error"]
    | .error (.otherError _) =>
      [errorDataReady knowledge.sessionId "Internal error processing query" "internal_error"]

/-! ## Quality Inspector (`agents/quality_inspector.py`) -/

/-- The parsed JSON reply of the insight-generation LLM call, with the
`insights.get(..., [])` defaults applied at the oracle boundary. -/
structure InsightsReply where
  observations : List PyDict
  anomalies : List PyDict
  rootCauses : List PyDict
deriving DecidableEq

/-- The `insights_ready` knowledge unit.  `isRejected` and
`rejectionReason` are `Option`-valued because the ordinary analysis path
does not put those keys into the dictionary at all, while the
rejected/error path does. -/
structure InsightsReady where
  observations : List PyDict
  anomalies : List PyDict
  rootCauses : List PyDict
  sessionId : String
  isRejected : Option PyVal
  rejectionReason : Option PyVal
deriving DecidableEq

/-- The `anomaly_detected` knowledge unit. -/
structure AnomalyDetected where
  anomalies : List PyDict
  sessionId : String
deriving DecidableEq

/-- A knowledge unit broadcast by the quality-inspector handler. -/
inductive QIBroadcast where
  | insights (i : InsightsReady)
  | anomaly (a : AnomalyDetected)
deriving DecidableEq

/-- `QualityInspectorAgent.analyze_data`: empty data and LLM failure both
yield empty insight lists; a successful call yields the parsed lists. -/
def analyzeData (oracle : Option InsightsReply) (data : List PyDict)
    (sessionId : String) : InsightsReady :=
  if data.isEmpty then
    ⟨[], [], [], sessionId, Option.none, Option.none⟩
  else
    match oracle with
    | Option.some r => ⟨r.observations, r.anomalies, r.rootCauses, sessionId, Option.none, Option.none⟩
    | Option.none => ⟨[], [], [], sessionId, Option.none, Option.none⟩

/-- `anomaly.get("severity") == "critical"` (default `None`). -/
def isCriticalAnomaly (a : PyDict) : Bool :=
  dictGetD a "severity" .none = .str "critical"

/-- `quality_inspector_handler`: a rejected or error-tagged `data_ready`
short-circuits to an empty `insights_ready` tagged with the rejection
flag (no LLM call — the oracle is not consulted); otherwise the data is
analyzed, a separate `anomaly_detected` unit is broadcast first when any
critical anomaly is present, and `insights_ready` follows. -/
def qualityInspectorHandler (oracle : Option InsightsReply) (k : DataReady) :
    List QIBroadcast :=
  let isRejected := dictGetD k.metadata "is_rejected" (.bool false)
  let hasError :=
    match alGet k.metadata "error" with
    | Option.some v => v ≠ .none
    | Option.none => false
  if pyTruthy isRejected || hasError then
    [.insights ⟨[], [], [], k.sessionId, Option.some isRejected
      , Option.some (dictGetD k.metadata "rejection_reason" (.str ""))⟩]
  else
    let insights := analyzeData oracle k.queryResults k.sessionId
    let critical := insights.anomalies.filter isCriticalAnomaly
    (if critical.isEmpty then []
     else [.anomaly ⟨critical, k.sessionId⟩])
      ++ [.insights insights]

/-! ## Visualization handler (`visualization_specialist_handler`) -/

/-- The `chart_ready` knowledge unit. -/
structure ChartReady where
  chartType : String
  chartSpec : ChartSpec
  sessionId : String
deriving DecidableEq

/-- `visualization_specialist_handler`: determines the chart type (LLM or
fallback), generates the specification, and broadcasts `chart_ready`.
The returned boolean records whether the LLM was invoked.  The handler's
runtime type normalization of `metadata`/`dimensions`/`measures` is the
identity on the typed model, and the `try/except` around spec generation
is vacuous because `generateChartSpec` is total. -/
def visualizationHandler (k : DataReady) (llm : Option String) :
    ChartReady × Bool :=
  let ctCalled := determineChartType k.queryResults k.measures k.dimensions k.metadata llm
  let chartSpec := generateChartSpec k.queryResults k.measures k.dimensions ctCalled.1 k.metadata
  (⟨ctCalled.1, chartSpec, k.sessionId⟩, ctCalled.2)

/-! ## Report Writer (`agents/report_writer.py`)

The session-correlation join: `_session_data` accumulates the chart and
the insights per session and composes the final response exactly when
both are present. -/

/-- The `final_response_ready` knowledge unit. -/
structure FinalResponse where
  narrative : String
  chartSpec : Option ChartSpec
  followUps : List String
  sessionId : String
deriving DecidableEq

/-- One `_session_data` entry.  The Python entry dictionary initially
lacks the `"is_rejected"` key and every read uses default `False`, so a
`PyVal` field initialized to `False` is observationally identical. -/
structure SessionEntry where
  chart : Option ChartSpec
  insights : Option InsightsReady
  isRejected : PyVal
deriving DecidableEq

/-- The `_session_data` accumulator, keyed by session id. -/
abbrev RWState := List (String × SessionEntry)

/-- A spore received by `report_writer_handler`.  `chartReady` carries
`knowledge.get("chart_spec", ...)`: `none` models a `chart_ready`
dictionary lacking the key, replaced by the `{"type": "unknown"}`
default. -/
inductive RWEvent where
  | chartReady (sessionId : String) (chartSpec : Option ChartSpec)
  | insightsReady (sessionId : String) (ins : InsightsReady)
deriving DecidableEq

/-- The session id of an event. -/
def RWEvent.sessionId : RWEvent → String
  | .chartReady s _ => s
  | .insightsReady s _ => s

/-- The oracle of the two composer LLM calls: the narrative completion
and the follow-up generation (`none` = the call raised). -/
structure ComposeOracle where
  narrativeReply : Option String
  followUpsReply : Option (List String)

/-- `ReportWriterAgent._create_fallback_narrative`. -/
def fallbackNarrative (observations anomalies rootCauses : List PyDict) : String :=
  let l₁ := ["🔍 Key Findings:"]
  let l₂ :=
    if observations.isEmpty then ["• Data retrieved successfully"]
    else (observations.take 3).map fun o => "• " ++ pyStr (dictGetD o "text" (.str ""))
  let l₃ :=
    if rootCauses.isEmpty then []
    else "\n🔧 Root Causes:"
      :: (rootCauses.take 2).map fun rc => "• " ++ pyStr (dictGetD rc "hypothesis" (.str ""))
  let l₄ :=
    if anomalies.isEmpty then []
    else "\n⚠️ Anomalies Detected:"
      :: (anomalies.take 2).map fun a => "• " ++ pyStr (dictGetD a "description" (.str ""))
  joinWith "\n" (l₁ ++ l₂ ++ l₃ ++ l₄)

/-- The fixed fallback suggestions of `_generate_follow_ups`. -/
def fallbackFollowUps : List String :=
  [ "Compare quality scores between CT and MRI"
  , "Show the CAT rating distribution"
  , "How many male vs female patients?" ]

/-- `ReportWriterAgent._generate_follow_ups`: one LLM call; on success
the first three parsed questions, on failure the fixed fallback list.
The second component counts LLM calls (always 1 — the call is made in
both branches; failure means it raised). -/
def generateFollowUps (oracle : ComposeOracle) : List String × Nat :=
  match oracle.followUpsReply with
  | Option.some fus => (fus.take 3, 1)
  | Option.none => (fallbackFollowUps, 1)

/-- `ReportWriterAgent.compose_narrative`: narrative LLM call plus
follow-up LLM call on success; on narrative failure the deterministic
fallback narrative with empty follow-ups.  Second component counts LLM
calls. -/
def composeNarrative (oracle : ComposeOracle) (chart : ChartSpec)
    (ins : InsightsReady) (sessionId : String) : FinalResponse × Nat :=
  match oracle.narrativeReply with
  | Option.some text =>
    let fusN := generateFollowUps oracle
    ({ narrative := strStrip text, chartSpec := Option.some chart
     , followUps := fusN.1, sessionId := sessionId }, 1 + fusN.2)
  | Option.none =>
    ({ narrative := fallbackNarrative ins.observations ins.anomalies ins.rootCauses
     , chartSpec := Option.some chart, followUps := [], sessionId := sessionId }, 1)

/-- The fixed rejection narrative of `report_writer_handler`
(an f-string over the rejection reason). -/
def rejectionNarrative (reason : PyVal) : String :=
  "I can only answer questions about medical radiology audit data. " ++ pyStr reason
    ++ "\n\nPlease ask about:\n• Quality Metrics (Quality Scores, Safety Scores, Star Ratings)\n• CAT Ratings (CAT1-CAT5)\n• Radiologist Performance\n• Modality Analysis (CT, MRI)\n• Turnaround Times"

/-- The canned follow-ups of the rejection response. -/
def rejectionFollowUps : List String :=
  [ "What's the average quality score by modality?"
  , "Show me the CAT rating distribution" ]

/-- The lazy initialization of `_session_data[session_id]` (lines
357–361 of `report_writer.py`): a fresh entry with no chart, no insights
and the `is_rejected` default. -/
def rwInit (st : RWState) (sid : String) : RWState :=
  if (alGet st sid).isSome then st
  else alSet st sid ⟨Option.none, Option.none, .bool false⟩

/-- Storing the received chart or insights (plus the `is_rejected` flag
carried on insights) into the session entry. -/
def rwStore (st : RWState) : RWEvent → RWState
  | .chartReady sid chartSpec =>
    alUpdate st sid fun e => { e with chart := Option.some (chartSpec.getD .unknown) }
  | .insightsReady sid ins =>
    alUpdate st sid fun e =>
      { e with insights := Option.some ins,
               isRejected := (ins.isRejected).getD (.bool false) }

/-- The "have BOTH chart and insights" check: exactly when both are
present, compose the final response (fixed rejection text without any
LLM call when rejected, otherwise `compose_narrative`), broadcast it and
delete the accumulator entry. -/
def rwCompose (oracle : ComposeOracle) (st : RWState) (sid : String) :
    RWState × List FinalResponse × Nat :=
  match alGet st sid with
  | Option.none => (st, [], 0)
  | Option.some entry =>
    match entry.chart, entry.insights with
    | Option.some chart, Option.some ins =>
      if pyTruthy entry.isRejected then
        let reason := (ins.rejectionReason).getD (.str "Query out of scope")
        (alDel st sid
        , [{ narrative := rejectionNarrative reason, chartSpec := Option.none
           , followUps := rejectionFollowUps, sessionId := sid }], 0)
      else
        let respN := composeNarrative oracle chart ins sid
        (alDel st sid, [respN.1], respN.2)
    | _, _ => (st, [], 0)

/-- One invocation of `report_writer_handler`: initialize, store,
compose-if-complete.  Returns the new state, the broadcast responses and
the number of LLM calls made. -/
def reportWriterStep (oracle : ComposeOracle) (st : RWState) (ev : RWEvent) :
    RWState × List FinalResponse × Nat :=
  rwCompose oracle (rwStore (rwInit st ev.sessionId) ev) ev.sessionId

/-- Run `report_writer_handler` over a sequence of received spores from
a given accumulator state: the final state, all broadcast responses in
order, and the total number of LLM calls. -/
def runRWFrom (oracle : ComposeOracle) (st : RWState) :
    List RWEvent → RWState × List FinalResponse × Nat
  | [] => (st, [], 0)
  | ev :: rest =>
    let r := reportWriterStep oracle st ev
    let r' := runRWFrom oracle r.1 rest
    (r'.1, r.2.1 ++ r'.2.1, r.2.2 + r'.2.2)

/-- Run `report_writer_handler` over a sequence of received spores,
starting from the empty accumulator (module load state). -/
def runRW (oracle : ComposeOracle) (events : List RWEvent) :
    RWState × List FinalResponse × Nat :=
  runRWFrom oracle [] events

/-- Number of `chart_ready` events for session `S` in a trace. -/
def chartCount (S : String) (events : List RWEvent) : Nat :=
  (events.filter fun ev =>
    match ev with
    | .chartReady s _ => s = S
    | _ => false).length

/-- Number of `insights_ready` events for session `S` in a trace. -/
def insightsCount (S : String) (events : List RWEvent) : Nat :=
  (events.filter fun ev =>
    match ev with
    | .insightsReady s _ => s = S
    | _ => false).length

/-- Number of final responses published for session `S`. -/
def emittedCount (S : String) (outs : List FinalResponse) : Nat :=
  (outs.filter fun r => r.sessionId = S).length

/-- Whether an accumulator slot holds a chart (as a `0`/`1` count). -/
def chartFlagO : Option SessionEntry → Nat
  | Option.some e => if e.chart.isSome then 1 else 0
  | Option.none => 0

/-- Whether an accumulator slot holds insights (as a `0`/`1` count). -/
def insightsFlagO : Option SessionEntry → Nat
  | Option.some e => if e.insights.isSome then 1 else 0
  | Option.none => 0

/-- Whether the accumulator holds a chart for session `S`. -/
def entryChartFlag (st : RWState) (S : String) : Nat :=
  chartFlagO (alGet st S)

/-- Whether the accumulator holds insights for session `S`. -/
def entryInsightsFlag (st : RWState) (S : String) : Nat :=
  insightsFlagO (alGet st S)

/-! ## Concrete inputs used by witnesses and counterexamples -/

/-- Thirteen one-dimension, one-measure rows, exceeding the 12-entry
colour palette (used to refute the per-row colour claim for donuts). -/
def donut13Rows : List PyDict :=
  (List.range 13).map fun i => [("d", PyVal.str (toString i)), ("m", PyVal.num i)]

/-- Four concrete two-dimension rows (including a `None` cell) for the
C8 witness. -/
def c8Rows : List PyDict :=
  [ [("modality", .str "CT"), ("gender", .str "M"), ("count", .num 3)]
  , [("modality", .str "MRI"), ("gender", .str "M"), ("count", .num 4)]
  , [("modality", .str "CT"), ("gender", .str "F"), ("count", .num 5)]
  , [("modality", .str "MRI"), ("gender", .str "F"), ("count", .none)] ]

/-! ## General association-list lemmas -/

theorem alGet_nil {β : Type} (k : String) : alGet ([] : List (String × β)) k = Option.none := rfl

theorem alGet_cons {β : Type} (a : String) (b : β) (rest : List (String × β)) (k : String) :
    alGet ((a, b) :: rest) k = if a = k then Option.some b else alGet rest k := by
  by_cases h : a = k <;> simp [alGet, List.find?, h]

theorem alSet_cons {β : Type} (a : String) (b : β) (rest : List (String × β)) (k : String)
    (v : β) :
    alSet ((a, b) :: rest) k v
      = if a = k then (k, v) :: rest else (a, b) :: alSet rest k v := rfl

theorem alDel_cons {β : Type} (a : String) (b : β) (rest : List (String × β)) (k : String) :
    alDel ((a, b) :: rest) k = if a = k then alDel rest k else (a, b) :: alDel rest k := by
  by_cases h : a = k <;> simp [alDel, List.filter_cons, h]

theorem alUpdate_nil {β : Type} (k : String) (f : β → β) :
    alUpdate ([] : List (String × β)) k f = [] := rfl

theorem alUpdate_cons {β : Type} (a : String) (b : β) (rest : List (String × β)) (k : String)
    (f : β → β) :
    alUpdate ((a, b) :: rest) k f
      = (if a = k then (a, f b) else (a, b)) :: alUpdate rest k f := by
  by_cases h : a = k <;> simp [alUpdate, h]

theorem alGet_alSet_self {β : Type} (l : List (String × β)) (k : String) (v : β) :
    alGet (alSet l k v) k = Option.some v := by
  induction l with
  | nil => simp [alSet, alGet_cons]
  | cons p rest ih =>
    obtain ⟨a, b⟩ := p
    by_cases h : a = k
    · simp [alSet_cons, h, alGet_cons]
    · simp [alSet_cons, h, alGet_cons, ih]

theorem alGet_alSet_of_ne {β : Type} (l : List (String × β)) (k k' : String) (v : β)
    (h : k' ≠ k) : alGet (alSet l k v) k' = alGet l k' := by
  induction l with
  | nil =>
    have hne : ¬k = k' := fun hh => h hh.symm
    simp [alSet, alGet_cons, alGet_nil, hne]
  | cons p rest ih =>
    obtain ⟨a, b⟩ := p
    by_cases hp : a = k
    · subst hp
      have hne : ¬a = k' := fun hh => h hh.symm
      simp [alSet_cons, alGet_cons, hne]
    · simp [alSet_cons, hp, alGet_cons, ih]

theorem alGet_alDel_self {β : Type} (l : List (String × β)) (k : String) :
    alGet (alDel l k) k = Option.none := by
  induction l with
  | nil => rfl
  | cons p rest ih =>
    obtain ⟨a, b⟩ := p
    by_cases h : a = k
    · simp [alDel_cons, h, ih]
    · simp [alDel_cons, h, alGet_cons, ih]

theorem alGet_alDel_of_ne {β : Type} (l : List (String × β)) (k k' : String)
    (h : k' ≠ k) : alGet (alDel l k) k' = alGet l k' := by
  induction l with
  | nil => rfl
  | cons p rest ih =>
    obtain ⟨a, b⟩ := p
    by_cases hp : a = k
    · subst hp
      have hne : ¬a = k' := fun hh => h hh.symm
      simp [alDel_cons, alGet_cons, hne, ih]
    · simp [alDel_cons, hp, alGet_cons, ih]

theorem alGet_alUpdate_self {β : Type} (l : List (String × β)) (k : String) (f : β → β) :
    alGet (alUpdate l k f) k = (alGet l k).map f := by
  induction l with
  | nil => rfl
  | cons p rest ih =>
    obtain ⟨a, b⟩ := p
    by_cases h : a = k
    · simp [alUpdate_cons, h, alGet_cons]
    · simp [alUpdate_cons, h, alGet_cons, ih]

theorem alGet_alUpdate_of_ne {β : Type} (l : List (String × β)) (k k' : String) (f : β → β)
    (h : k' ≠ k) : alGet (alUpdate l k f) k' = alGet l k' := by
  induction l with
  | nil => rfl
  | cons p rest ih =>
    obtain ⟨a, b⟩ := p
    by_cases hp : a = k
    · subst hp
      have hne : ¬a = k' := fun hh => h hh.symm
      simp [alUpdate_cons, alGet_cons, hne, ih]
    · simp [alUpdate_cons, hp, alGet_cons, ih]

/-! ## Claim theorems -/

theorem one_le_length_ifEmpty (l : List String) (d : String) :
    1 ≤ (if l.isEmpty then [d] else l).length := by
  cases l <;> simp

/-- C3: the metric list of every planner-produced query descriptor — for
any LLM reply, malformed reply or LLM failure — and the measure list of
every Cube.js query built from an enriched request are never empty; a
record-count metric is substituted as the default when nothing
validates. -/
theorem metric_list_never_empty :
    ∀ (oracle : Option PlannerReply) (message sessionId : String) (req : EnrichedRequest),
      1 ≤ (analyzeQuery oracle message sessionId).metrics.length
        ∧ 1 ≤ (buildCubeQuery req).measures.length := by
  intro oracle message sessionId req
  constructor
  · cases oracle with
    | none => simp [analyzeQuery]
    | some r =>
      simp only [analyzeQuery]
      exact one_le_length_ifEmpty _ _
  · simp only [buildCubeQuery]
    exact one_le_length_ifEmpty _ _

/-- Witness for C3 at a concrete planner reply whose metrics all fail
validation, and at the fallback request. -/
theorem metric_list_never_empty_witness :
    1 ≤ (analyzeQuery (Option.some
        { isRejected := .bool false, rejectionReason := .none
        , cubeRecommendation := "RadiologyAudits", metrics := []
        , dimensions := [], filters := [], timeRange := Option.none
        , analysisType := "summary" }) "hello" "s1").metrics.length
      ∧ 1 ≤ (buildCubeQuery (analyzeQuery Option.none "hello" "s1")).measures.length :=
  ⟨(metric_list_never_empty (Option.some
        { isRejected := .bool false, rejectionReason := .none
        , cubeRecommendation := "RadiologyAudits", metrics := []
        , dimensions := [], filters := [], timeRange := Option.none
        , analysisType := "summary" }) "hello" "s1" (analyzeQuery Option.none "hello" "s1")).1,
   (metric_list_never_empty Option.none "hello" "s1"
      (analyzeQuery Option.none "hello" "s1")).2⟩

/-- C4: shape metadata reporting zero rows (`row_count` equal to `0`, or
absent, which defaults to `0`) makes `determine_chart_type` return the
`empty` archetype without invoking the LLM service. -/
theorem zero_row_metadata_empty_archetype :
    ∀ (data : List PyDict) (measures dimensions : List String) (metadata : PyDict)
      (llm : Option String),
      dictGetD metadata "row_count" (.num 0) = .num 0 →
      determineChartType data measures dimensions metadata llm = ("empty", false) := by
  intro data measures dimensions metadata llm h
  simp [determineChartType, h]

/-- Witness for C4 at the metadata of a rejected query, which lacks the
`row_count` key altogether. -/
theorem zero_row_metadata_empty_archetype_witness :
    dictGetD [("is_rejected", .bool true)] "row_count" (.num 0) = .num 0
      ∧ determineChartType [] [] [] [("is_rejected", .bool true)] (Option.some "bar")
          = ("empty", false) :=
  ⟨by decide,
   zero_row_metadata_empty_archetype [] [] [] [("is_rejected", .bool true)]
     (Option.some "bar") (by decide)⟩

/-- C7: when the LLM chart-type call fails on a result set whose shape
metadata reports `q` rows, the deterministic fallback picks `kpi` for
`q = 1`, `bar` for `2 ≤ q ≤ 10`, and `table` for `q > 10` (in each case
after the LLM was attempted). -/
theorem llm_failure_fallback_archetype :
    ∀ (data : List PyDict) (measures dimensions : List String) (metadata : PyDict) (q : ℚ),
      dictGetD metadata "row_count" (.num 0) = .num q →
      ((q = 1 →
          determineChartType data measures dimensions metadata Option.none = ("kpi", true))
        ∧ (2 ≤ q → q ≤ 10 →
            determineChartType data measures dimensions metadata Option.none = ("bar", true))
        ∧ (10 < q →
            determineChartType data measures dimensions metadata Option.none = ("table", true))) := by
  intro data measures dimensions metadata q h
  refine ⟨?_, ?_, ?_⟩
  · intro h1
    subst h1
    simp [determineChartType, h]
  · intro h2 h10
    have hq0 : ¬(q = 0) := by intro hq; rw [hq] at h2; norm_num at h2
    have hq1 : ¬(q = 1) := by intro hq; rw [hq] at h2; norm_num at h2
    simp [determineChartType, h, hq0, hq1, h10]
  · intro h10
    have hq0 : ¬(q = 0) := by intro hq; rw [hq] at h10; norm_num at h10
    have hq1 : ¬(q = 1) := by intro hq; rw [hq] at h10; norm_num at h10
    have hle : ¬(q ≤ 10) := not_le.mpr h10
    simp [determineChartType, h, hq0, hq1, hle]

/-- Witness for C7 at row counts 1, 5 and 42. -/
theorem llm_failure_fallback_archetype_witness :
    determineChartType [] [] [] [("row_count", .num 1)] Option.none = ("kpi", true)
      ∧ determineChartType [] [] [] [("row_count", .num 5)] Option.none = ("bar", true)
      ∧ determineChartType [] [] [] [("row_count", .num 42)] Option.none = ("table", true) :=
  ⟨(llm_failure_fallback_archetype [] [] [] [("row_count", .num 1)] 1 (by decide)).1 rfl,
   (llm_failure_fallback_archetype [] [] [] [("row_count", .num 5)] 5 (by decide)).2.1
     (by norm_num) (by norm_num),
   (llm_failure_fallback_archetype [] [] [] [("row_count", .num 42)] 42 (by decide)).2.2
     (by norm_num)⟩

/-- C9: `generate_chart_spec` is a pure deterministic transform: repeated
calls on the same inputs agree, the (never consulted) shape-metadata
argument does not influence the result, and inside the handler the spec
generation neither makes nor depends on any LLM call — the handler's
LLM-usage flag is exactly that of the chart-type selection. -/
theorem build_spec_pure_and_deterministic :
    ∀ (data : List PyDict) (measures dimensions : List String) (chartType : String)
      (md md' : PyDict),
      generateChartSpec data measures dimensions chartType md
          = generateChartSpec data measures dimensions chartType md'
        ∧ generateChartSpec data measures dimensions chartType md
          = generateChartSpec data measures dimensions chartType md
        ∧ (∀ (k : DataReady) (llm : Option String),
            (visualizationHandler k llm).1.chartSpec
                = generateChartSpec k.queryResults k.measures k.dimensions
                    (determineChartType k.queryResults k.measures k.dimensions k.metadata llm).1
                    k.metadata
              ∧ (visualizationHandler k llm).2
                = (determineChartType k.queryResults k.measures k.dimensions k.metadata llm).2) :=
  fun _ _ _ _ _ _ => ⟨rfl, rfl, fun _ _ => ⟨rfl, rfl⟩⟩

/-- C10: a non-empty result set with an archetype string outside the
recognized set falls through `generate_chart_spec` to the table
generator, producing a table specification (no exception, no non-table
chart). -/
theorem unrecognized_archetype_falls_back_to_table :
    ∀ (data : List PyDict) (measures dimensions : List String) (chartType : String)
      (metadata : PyDict),
      data ≠ [] →
      chartType ∉ (["empty", "kpi", "table", "bar", "grouped_bar", "line", "donut"] : List String) →
      generateChartSpec data measures dimensions chartType metadata
          = generateTable data dimensions measures
        ∧ (generateChartSpec data measures dimensions chartType metadata).isTable = true := by
  intro data measures dimensions chartType metadata hdata hct
  simp only [List.mem_cons, List.not_mem_nil, or_false, not_or] at hct
  obtain ⟨h1, h2, h3, h4, h5, h6, h7⟩ := hct
  have he : generateChartSpec data measures dimensions chartType metadata
      = generateTable data dimensions measures := by
    simp [generateChartSpec, h1, h2, h3, h4, h5, h6, h7]
  refine ⟨he, ?_⟩
  rw [he]
  rcases data with _ | ⟨r, rest⟩
  · exact absurd rfl hdata
  · simp [generateTable, ChartSpec.isTable]

/-- Witness for C10 at the unrecognized archetype string `"pie"`. -/
theorem unrecognized_archetype_falls_back_to_table_witness :
    generateChartSpec [[("modality", .str "CT"), ("count", .num 3)]] ["count"] ["modality"]
        "pie" []
        = generateTable [[("modality", .str "CT"), ("count", .num 3)]] ["modality"] ["count"]
      ∧ (generateChartSpec [[("modality", .str "CT"), ("count", .num 3)]] ["count"] ["modality"]
          "pie" []).isTable = true :=
  unrecognized_archetype_falls_back_to_table
    [[("modality", .str "CT"), ("count", .num 3)]] ["count"] ["modality"] "pie" []
    (by decide) (by decide)

/-- C6: a Cube.js HTTP status error (raised by the client as a
`ValueError`) and a transport error (raised as a `ConnectionError`) are
both caught by the analytics handler and converted into an empty
`data_ready` unit whose metadata carries `error` and `error_type`, so the
downstream join still receives a result for the session. -/
theorem query_failure_tagged_empty_result :
    ∀ (req : EnrichedRequest) (queryTimeMs code : Nat) (text msg : String),
      pyTruthy req.isRejected = false →
      (analyticsHandler req (.statusErr code text) queryTimeMs
          = [errorDataReady req.sessionId ("Cube.js query failed: " ++ text) "query_error"]
        ∧ analyticsHandler req (.requestErr msg) queryTimeMs
          = [errorDataReady req.sessionId "Cannot connect to data service" "connection_error"]
        ∧ (∀ (sid eMsg eTy : String),
            (errorDataReady sid eMsg eTy).queryResults = []
              ∧ alGet (errorDataReady sid eMsg eTy).metadata "error" = Option.some (.str eMsg)
              ∧ alGet (errorDataReady sid eMsg eTy).metadata "error_type"
                  = Option.some (.str eTy))) := by
  intro req queryTimeMs code text msg h
  refine ⟨?_, ?_, fun sid eMsg eTy => ⟨rfl, rfl, rfl⟩⟩
  · simp [analyticsHandler, h, executeQuerySpec, clientExecuteQuery]
  · simp [analyticsHandler, h, executeQuerySpec, clientExecuteQuery]

/-! ### C5: bar/donut chart colour assignment -/

/-- C5 counterexample: on a 13-row donut the background-colour list is
the 12-entry palette prefix — there is no colour at row index 12, whereas
a repeating per-row-index assignment would put the first palette colour
there.  (The claim holds for `bar` charts and for donuts of at most 12
rows; see the amended theorem.) -/
theorem donut_color_list_not_per_row :
    donut13Rows.length = 13
      ∧ ((generateDonutChart donut13Rows ["d"] ["m"]).bgColors).length = 12
      ∧ ((generateDonutChart donut13Rows ["d"] ["m"]).bgColors)[12]? = Option.none := by
  refine ⟨by rfl, by rfl, by rfl⟩

/-- C5 (amended): for `bar` and `donut` specifications built from
non-empty rows, the label and value lists have one entry per input row;
a bar chart's background colours are exactly the palette entry at the
row index modulo 12 for every row; a donut chart's background colours
are the palette prefix of the row count (which coincides with the
repeating per-row assignment whenever there are at most 12 rows).  All
of these depend only on the input rows, so identical inputs yield
identical colour lists. -/
theorem bar_donut_labels_values_colors :
    ∀ (data : List PyDict) (dimensions measures : List String),
      data ≠ [] → dimensions ≠ [] → measures ≠ [] →
      ((generateBarChart data dimensions measures).labelList.length = data.length
        ∧ (generateBarChart data dimensions measures).valueList.length = data.length
        ∧ (generateBarChart data dimensions measures).bgColors.length = data.length
        ∧ (∀ i, i < data.length →
            ((generateBarChart data dimensions measures).bgColors)[i]?
              = Option.some (barColors.getD (i % 12) "")))
      ∧ ((generateDonutChart data dimensions measures).labelList.length = data.length
        ∧ (generateDonutChart data dimensions measures).valueList.length = data.length
        ∧ (generateDonutChart data dimensions measures).bgColors
            = donutColors.take data.length) := by
  intro data dimensions measures hd hdim hm
  have hd' : data.isEmpty = false := by
    cases data
    · exact absurd rfl hd
    · rfl
  have hdim' : dimensions.isEmpty = false := by
    cases dimensions
    · exact absurd rfl hdim
    · rfl
  have hm' : measures.isEmpty = false := by
    cases measures
    · exact absurd rfl hm
    · rfl
  have hbar : barColors.length = 12 := rfl
  refine ⟨⟨?_, ?_, ?_, ?_⟩, ⟨?_, ?_, ?_⟩⟩
  · simp [generateBarChart, hd', hdim', hm', ChartSpec.labelList]
  · simp [generateBarChart, hd', hdim', hm', ChartSpec.valueList]
  · simp [generateBarChart, hd', hdim', hm', ChartSpec.bgColors]
  · intro i hi
    simp only [generateBarChart, hd', hdim', hm', Bool.false_or, Bool.or_false,
      Bool.false_eq_true, if_false, ChartSpec.bgColors]
    rw [List.getElem?_map, List.getElem?_range (by simpa using hi)]
    simp [hbar]
  · simp [generateDonutChart, hd', hdim', hm', ChartSpec.labelList]
  · simp [generateDonutChart, hd', hdim', hm', ChartSpec.valueList]
  · simp [generateDonutChart, hd', hdim', hm', ChartSpec.bgColors]

/-- Witness for the amended C5 at a concrete two-row input. -/
theorem bar_donut_labels_values_colors_witness :
    ((generateBarChart [[("modality", .str "CT"), ("count", .num 3)],
        [("modality", .str "MRI"), ("count", .num 4)]] ["modality"] ["count"]).labelList.length = 2
      ∧ (generateBarChart [[("modality", .str "CT"), ("count", .num 3)],
        [("modality", .str "MRI"), ("count", .num 4)]] ["modality"] ["count"]).valueList.length = 2
      ∧ (generateBarChart [[("modality", .str "CT"), ("count", .num 3)],
        [("modality", .str "MRI"), ("count", .num 4)]] ["modality"] ["count"]).bgColors.length = 2
      ∧ (∀ i, i < 2 →
          ((generateBarChart [[("modality", .str "CT"), ("count", .num 3)],
            [("modality", .str "MRI"), ("count", .num 4)]] ["modality"] ["count"]).bgColors)[i]?
            = Option.some (barColors.getD (i % 12) "")))
    ∧ ((generateDonutChart [[("modality", .str "CT"), ("count", .num 3)],
        [("modality", .str "MRI"), ("count", .num 4)]] ["modality"] ["count"]).labelList.length = 2
      ∧ (generateDonutChart [[("modality", .str "CT"), ("count", .num 3)],
        [("modality", .str "MRI"), ("count", .num 4)]] ["modality"] ["count"]).valueList.length = 2
      ∧ (generateDonutChart [[("modality", .str "CT"), ("count", .num 3)],
        [("modality", .str "MRI"), ("count", .num 4)]] ["modality"] ["count"]).bgColors
          = donutColors.take 2) :=
  bar_donut_labels_values_colors
    [[("modality", .str "CT"), ("count", .num 3)], [("modality", .str "MRI"), ("count", .num 4)]]
    ["modality"] ["count"] (by decide) (by decide) (by decide)

/-! ### C8: grouped-bar structure -/

theorem mem_map_fst_alSet {β : Type} (l : List (String × β)) (k a : String) (v : β) :
    a ∈ (alSet l k v).map Prod.fst ↔ a ∈ l.map Prod.fst ∨ a = k := by
  induction l with
  | nil => simp [alSet]
  | cons p rest ih =>
    obtain ⟨x, y⟩ := p
    by_cases h : x = k
    · subst h
      simp [alSet_cons]
      tauto
    · simp [alSet_cons, h, ih]
      tauto

theorem nodup_map_fst_alSet {β : Type} (l : List (String × β)) (k : String) (v : β)
    (h : (l.map Prod.fst).Nodup) : ((alSet l k v).map Prod.fst).Nodup := by
  induction l with
  | nil => simp [alSet]
  | cons p rest ih =>
    obtain ⟨x, y⟩ := p
    simp only [List.map_cons, List.nodup_cons] at h
    by_cases hx : x = k
    · subst hx
      simpa [alSet_cons] using h
    · simp only [alSet_cons, hx, if_false, List.map_cons, List.nodup_cons]
      refine ⟨?_, ih h.2⟩
      intro hmem
      rcases (mem_map_fst_alSet rest k x v).mp hmem with hm | hm
      · exact h.1 hm
      · exact hx hm

theorem mem_setAdd (l : List String) (k a : String) : a ∈ setAdd l k ↔ a ∈ l ∨ a = k := by
  by_cases h : k ∈ l
  · simp only [setAdd, if_pos h]
    constructor
    · exact Or.inl
    · rintro (ha | rfl)
      · exact ha
      · exact h
  · simp [setAdd, h]

theorem nodup_setAdd (l : List String) (k : String) (h : l.Nodup) : (setAdd l k).Nodup := by
  by_cases hk : k ∈ l
  · simpa [setAdd, hk] using h
  · simp [setAdd, hk, List.nodup_append, h]

theorem groupFold_mem_keys (xK gK yK : String) (rows : List PyDict) :
    ∀ (acc : List (String × List (String × ℚ)) × List String) (a : String),
      (a ∈ (rows.foldl (groupFoldStep xK gK yK) acc).1.map Prod.fst
        ↔ a ∈ acc.1.map Prod.fst
            ∨ a ∈ rows.map fun row => pyStr (dictGetD row xK (.str ""))) := by
  induction rows with
  | nil => simp
  | cons row rest ih =>
    intro acc a
    simp only [List.foldl_cons, List.map_cons, List.mem_cons]
    rw [ih]
    simp only [groupFoldStep, mem_map_fst_alSet]
    tauto

theorem groupFold_mem_groups (xK gK yK : String) (rows : List PyDict) :
    ∀ (acc : List (String × List (String × ℚ)) × List String) (a : String),
      (a ∈ (rows.foldl (groupFoldStep xK gK yK) acc).2
        ↔ a ∈ acc.2 ∨ a ∈ rows.map fun row => pyStr (dictGetD row gK (.str ""))) := by
  induction rows with
  | nil => simp
  | cons row rest ih =>
    intro acc a
    simp only [List.foldl_cons, List.map_cons, List.mem_cons]
    rw [ih]
    simp only [groupFoldStep, mem_setAdd]
    tauto

theorem groupFold_keys_nodup (xK gK yK : String) (rows : List PyDict) :
    ∀ (acc : List (String × List (String × ℚ)) × List String),
      (acc.1.map Prod.fst).Nodup →
      ((rows.foldl (groupFoldStep xK gK yK) acc).1.map Prod.fst).Nodup := by
  induction rows with
  | nil => exact fun acc h => h
  | cons row rest ih =>
    intro acc h
    exact ih _ (nodup_map_fst_alSet _ _ _ h)

theorem groupFold_groups_nodup (xK gK yK : String) (rows : List PyDict) :
    ∀ (acc : List (String × List (String × ℚ)) × List String),
      acc.2.Nodup → ((rows.foldl (groupFoldStep xK gK yK) acc).2).Nodup := by
  induction rows with
  | nil => exact fun acc h => h
  | cons row rest ih =>
    intro acc h
    exact ih _ (nodup_setAdd _ _ h)

theorem sortStrings_sorted (l : List String) : (sortStrings l).Sorted (· ≤ ·) :=
  List.sorted_insertionSort _ l

theorem mem_sortStrings (l : List String) (a : String) : a ∈ sortStrings l ↔ a ∈ l :=
  List.mem_insertionSort _

theorem sortStrings_nodup (l : List String) (h : l.Nodup) : (sortStrings l).Nodup :=
  ((List.perm_insertionSort _ l).nodup_iff).mpr h

/-- C8: for a grouped-bar specification built from at least one row, two
dimensions and one measure: the x-axis labels are exactly the distinct
primary-dimension values of the rows in lexicographically sorted order
(sorted, duplicate-free, same membership); the datasets are exactly one
per distinct secondary-dimension value, in lexicographically sorted
order; every dataset has one point per x-axis label; and the numeric
cell coercion maps `None` and unparsable strings to `0` instead of
raising. -/
theorem grouped_bar_structure :
    ∀ (data : List PyDict) (dimensions measures : List String),
      data ≠ [] → 2 ≤ dimensions.length → measures ≠ [] →
      (((generateGroupedBarChart data dimensions measures).labelList.Sorted (· ≤ ·)
        ∧ (generateGroupedBarChart data dimensions measures).labelList.Nodup
        ∧ (∀ s, s ∈ (generateGroupedBarChart data dimensions measures).labelList
            ↔ s ∈ data.map fun row =>
                pyStr (dictGetD row
                  (getDimensionKey (data.headD []) (dimensions.headD "")) (.str ""))))
      ∧ (((generateGroupedBarChart data dimensions measures).groupDatasets.map
            GroupDataset.label).Sorted (· ≤ ·)
        ∧ ((generateGroupedBarChart data dimensions measures).groupDatasets.map
            GroupDataset.label).Nodup
        ∧ (∀ s, s ∈ (generateGroupedBarChart data dimensions measures).groupDatasets.map
              GroupDataset.label
            ↔ s ∈ data.map fun row =>
                pyStr (dictGetD row
                  (getDimensionKey (data.headD []) (dimensions.getD 1 "")) (.str ""))))
      ∧ (∀ ds ∈ (generateGroupedBarChart data dimensions measures).groupDatasets,
          ds.data.length = (generateGroupedBarChart data dimensions measures).labelList.length)
      ∧ toNumber .none = 0
      ∧ (∀ s, parseFloatQ s = Option.none → toNumber (.str s) = 0)) := by
  intro data dimensions measures hd hdim hm
  have hd' : data.isEmpty = false := by
    cases data
    · exact absurd rfl hd
    · rfl
  have hm' : measures.isEmpty = false := by
    cases measures
    · exact absurd rfl hm
    · rfl
  have hdim' : decide (dimensions.length < 2) = false := by
    simp only [decide_eq_false_iff_not, not_lt]
    exact hdim
  have hmapLabel :
      (generateGroupedBarChart data dimensions measures).groupDatasets.map GroupDataset.label
        = sortStrings ((data.foldl
            (groupFoldStep (getDimensionKey (data.headD []) (dimensions.headD ""))
              (getDimensionKey (data.headD []) (dimensions.getD 1 ""))
              (getMeasureKey (data.headD []) (measures.headD ""))) ([], [])).2) := by
    simp only [generateGroupedBarChart, hd', hm', hdim', Bool.false_or, Bool.or_false,
      Bool.false_eq_true, if_false, ChartSpec.groupDatasets, List.map_map]
    have : (GroupDataset.label ∘ fun p : Nat × String =>
        GroupDataset.mk p.2
          (List.map (fun label =>
            match alGet ((data.foldl
              (groupFoldStep (getDimensionKey (data.headD []) (dimensions.headD ""))
                (getDimensionKey (data.headD []) (dimensions.getD 1 ""))
                (getMeasureKey (data.headD []) (measures.headD ""))) ([], [])).1) label with
            | Option.some inner => ((alGet inner p.2).getD 0)
            | Option.none => 0)
            (sortStrings ((data.foldl
              (groupFoldStep (getDimensionKey (data.headD []) (dimensions.headD ""))
                (getDimensionKey (data.headD []) (dimensions.getD 1 ""))
                (getMeasureKey (data.headD []) (measures.headD ""))) ([], [])).1.map Prod.fst)))
          (groupedColors.getD (p.1 % groupedColors.length) "")
          (strReplace (groupedColors.getD (p.1 % groupedColors.length) "") "0.6" "1"))
        = Prod.snd := rfl
    rw [this, List.enum_map_snd]
  refine ⟨⟨?_, ?_, ?_⟩, ⟨?_, ?_, ?_⟩, ?_, rfl, ?_⟩
  · simp only [generateGroupedBarChart, hd', hm', hdim', Bool.false_or, Bool.or_false,
      Bool.false_eq_true, if_false, ChartSpec.labelList]
    exact sortStrings_sorted _
  · simp only [generateGroupedBarChart, hd', hm', hdim', Bool.false_or, Bool.or_false,
      Bool.false_eq_true, if_false, ChartSpec.labelList]
    exact sortStrings_nodup _ (groupFold_keys_nodup _ _ _ _ _ (by simp))
  · intro s
    simp only [generateGroupedBarChart, hd', hm', hdim', Bool.false_or, Bool.or_false,
      Bool.false_eq_true, if_false, ChartSpec.labelList]
    rw [mem_sortStrings, groupFold_mem_keys]
    simp
  · rw [hmapLabel]
    exact sortStrings_sorted _
  · rw [hmapLabel]
    exact sortStrings_nodup _ (groupFold_groups_nodup _ _ _ _ _ (by simp))
  · intro s
    rw [hmapLabel, mem_sortStrings, groupFold_mem_groups]
    simp
  · intro ds hds
    simp only [generateGroupedBarChart, hd', hm', hdim', Bool.false_or, Bool.or_false,
      Bool.false_eq_true, if_false, ChartSpec.groupDatasets, ChartSpec.labelList,
      List.mem_map] at hds ⊢
    obtain ⟨p, _, rfl⟩ := hds
    simp
  · intro s hs
    simp [toNumber, hs]

/-- Witness for C8 at a concrete four-row, two-dimension input. -/
theorem grouped_bar_structure_witness :
    (generateGroupedBarChart c8Rows ["modality", "gender"] ["count"]).labelList.Sorted (· ≤ ·)
      ∧ (generateGroupedBarChart c8Rows ["modality", "gender"] ["count"]).labelList.Nodup
      ∧ ((generateGroupedBarChart c8Rows ["modality", "gender"] ["count"]).groupDatasets.map
          GroupDataset.label).Nodup
      ∧ (∀ ds ∈ (generateGroupedBarChart c8Rows ["modality", "gender"] ["count"]).groupDatasets,
          ds.data.length
            = (generateGroupedBarChart c8Rows ["modality", "gender"] ["count"]).labelList.length) :=
  ⟨(grouped_bar_structure c8Rows ["modality", "gender"] ["count"]
      (by decide) (by decide) (by decide)).1.1,
   (grouped_bar_structure c8Rows ["modality", "gender"] ["count"]
      (by decide) (by decide) (by decide)).1.2.1,
   (grouped_bar_structure c8Rows ["modality", "gender"] ["count"]
      (by decide) (by decide) (by decide)).2.1.2.1,
   (grouped_bar_structure c8Rows ["modality", "gender"] ["count"]
      (by decide) (by decide) (by decide)).2.2.1⟩

/-! ### C2: rejected-query short-circuit through the whole pipeline -/

/-- C2: for a request the planner marked rejected — whatever the query
service, the LLM oracles, or the arrival order at the composer would
have done — the analytics handler broadcasts exactly one empty
`data_ready` tagged `is_rejected`; the insight generator broadcasts
exactly one `insights_ready` with all three lists empty and the
rejection tag, independently of its LLM oracle; the presentation
selector chooses the `empty` archetype without invoking the LLM and
produces the empty spec; and the composer, in either arrival order,
publishes exactly the fixed rejection narrative with the canned
follow-ups and zero LLM calls. -/
theorem rejected_query_short_circuit :
    ∀ (req : EnrichedRequest) (outcome : HttpxOutcome) (queryTimeMs : Nat)
      (qiOracle qiOracle' : Option InsightsReply) (llm : Option String)
      (co : ComposeOracle),
      pyTruthy req.isRejected = true →
      (analyticsHandler req outcome queryTimeMs
          = [rejectedDataReady req.sessionId req.rejectionReason]
        ∧ (rejectedDataReady req.sessionId req.rejectionReason).queryResults = []
        ∧ dictGetD (rejectedDataReady req.sessionId req.rejectionReason).metadata
            "is_rejected" (.bool false) = .bool true
        ∧ qualityInspectorHandler qiOracle
            (rejectedDataReady req.sessionId req.rejectionReason)
          = [.insights ⟨[], [], [], req.sessionId, Option.some (.bool true),
              Option.some req.rejectionReason⟩]
        ∧ qualityInspectorHandler qiOracle
            (rejectedDataReady req.sessionId req.rejectionReason)
          = qualityInspectorHandler qiOracle'
              (rejectedDataReady req.sessionId req.rejectionReason)
        ∧ visualizationHandler (rejectedDataReady req.sessionId req.rejectionReason) llm
          = (⟨"empty", .empty "No data available for this query", req.sessionId⟩, false)
        ∧ (runRW co
            [ .chartReady req.sessionId
                (Option.some (.empty "No data available for this query"))
            , .insightsReady req.sessionId
                ⟨[], [], [], req.sessionId, Option.some (.bool true),
                  Option.some req.rejectionReason⟩ ]).2
          = ([⟨rejectionNarrative req.rejectionReason, Option.none, rejectionFollowUps,
              req.sessionId⟩], 0)
        ∧ (runRW co
            [ .insightsReady req.sessionId
                ⟨[], [], [], req.sessionId, Option.some (.bool true),
                  Option.some req.rejectionReason⟩
            , .chartReady req.sessionId
                (Option.some (.empty "No data available for this query")) ]).2
          = ([⟨rejectionNarrative req.rejectionReason, Option.none, rejectionFollowUps,
              req.sessionId⟩], 0)) := by
  intro req outcome queryTimeMs qiOracle qiOracle' llm co h
  refine ⟨?_, rfl, rfl, rfl, rfl, rfl, ?_, ?_⟩
  · simp [analyticsHandler, h]
  · simp [runRW, runRWFrom, reportWriterStep, rwInit, rwStore, rwCompose,
      RWEvent.sessionId, alGet_nil, alSet, alUpdate, alDel, alGet_cons, pyTruthy,
      rejectionNarrative]
  · simp [runRW, runRWFrom, reportWriterStep, rwInit, rwStore, rwCompose,
      RWEvent.sessionId, alGet_nil, alSet, alUpdate, alDel, alGet_cons, pyTruthy,
      rejectionNarrative]

/-- Witness for C2 at a concrete rejected request. -/
theorem rejected_query_short_circuit_witness :
    analyticsHandler
        { isRejected := .bool true, rejectionReason := .str "Out of scope"
        , cubeRecommendation := "RadiologyAudits", metrics := ["count"], dimensions := []
        , filters := [], timeRange := Option.none, partFamilies := []
        , analysisType := "summary", userMessage := "weather?", sessionId := "s9" }
        (.ok []) 0
        = [rejectedDataReady "s9" (.str "Out of scope")]
      ∧ visualizationHandler (rejectedDataReady "s9" (.str "Out of scope")) Option.none
        = (⟨"empty", .empty "No data available for this query", "s9"⟩, false) :=
  ⟨(rejected_query_short_circuit
      { isRejected := .bool true, rejectionReason := .str "Out of scope"
      , cubeRecommendation := "RadiologyAudits", metrics := ["count"], dimensions := []
      , filters := [], timeRange := Option.none, partFamilies := []
      , analysisType := "summary", userMessage := "weather?", sessionId := "s9" }
      (.ok []) 0 Option.none Option.none Option.none ⟨Option.none, Option.none⟩
      (by decide)).1,
   (rejected_query_short_circuit
      { isRejected := .bool true, rejectionReason := .str "Out of scope"
      , cubeRecommendation := "RadiologyAudits", metrics := ["count"], dimensions := []
      , filters := [], timeRange := Option.none, partFamilies := []
      , analysisType := "summary", userMessage := "weather?", sessionId := "s9" }
      (.ok []) 0 Option.none Option.none Option.none ⟨Option.none, Option.none⟩
      (by decide)).2.2.2.2.2.1⟩

/-! ### C1: the composer join state machine -/

theorem emittedCount_append (S : String) (a b : List FinalResponse) :
    emittedCount S (a ++ b) = emittedCount S a + emittedCount S b := by
  simp [emittedCount, List.filter_append]

theorem emittedCount_eq_zero {S : String} {outs : List FinalResponse}
    (h : ∀ r ∈ outs, r.sessionId ≠ S) : emittedCount S outs = 0 := by
  simp only [emittedCount, List.length_eq_zero]
  exact List.filter_eq_nil_iff.mpr fun r hr => by simpa using h r hr

theorem length_filter_cons {α : Type} (p : α → Bool) (a : α) (l : List α) :
    (List.filter p (a :: l)).length
      = (List.filter p [a]).length + (List.filter p l).length := by
  by_cases h : p a = true
  · simp [List.filter_cons, h]
    omega
  · simp [List.filter_cons, h]

theorem chartCount_cons (S : String) (ev : RWEvent) (rest : List RWEvent) :
    chartCount S (ev :: rest) = chartCount S [ev] + chartCount S rest :=
  length_filter_cons _ ev rest

theorem insightsCount_cons (S : String) (ev : RWEvent) (rest : List RWEvent) :
    insightsCount S (ev :: rest) = insightsCount S [ev] + insightsCount S rest :=
  length_filter_cons _ ev rest

theorem composeNarrative_sessionId (o : ComposeOracle) (chart : ChartSpec)
    (ins : InsightsReady) (sid : String) :
    ((composeNarrative o chart ins sid).1).sessionId = sid := by
  unfold composeNarrative
  rcases o.narrativeReply <;> simp

theorem rwCompose_out_sessionId (o : ComposeOracle) (st : RWState) (sid : String) :
    ∀ r ∈ (rwCompose o st sid).2.1, r.sessionId = sid := by
  intro r hr
  unfold rwCompose at hr
  rcases hg : alGet st sid with _ | entry <;> simp only [hg] at hr
  · simp at hr
  · rcases hc : entry.chart with _ | chart <;> simp only [hc] at hr
    · simp at hr
    · rcases hi : entry.insights with _ | ins <;> simp only [hi] at hr
      · simp at hr
      · by_cases hrj : pyTruthy entry.isRejected = true
        · simp [hrj] at hr
          rw [hr]
        · rw [Bool.not_eq_true] at hrj
          simp [hrj] at hr
          rw [hr]
          exact composeNarrative_sessionId o chart ins sid

theorem alGet_rwInit_of_ne (st : RWState) (sid S : String) (h : S ≠ sid) :
    alGet (rwInit st sid) S = alGet st S := by
  unfold rwInit
  split
  · rfl
  · exact alGet_alSet_of_ne _ _ _ _ h

theorem alGet_rwStore_of_ne (st : RWState) (ev : RWEvent) (S : String)
    (h : S ≠ ev.sessionId) :
    alGet (rwStore st ev) S = alGet st S := by
  cases ev with
  | chartReady sid cs =>
    simp only [RWEvent.sessionId] at h
    unfold rwStore
    exact alGet_alUpdate_of_ne _ _ _ _ h
  | insightsReady sid ins =>
    simp only [RWEvent.sessionId] at h
    unfold rwStore
    exact alGet_alUpdate_of_ne _ _ _ _ h

theorem alGet_rwCompose_of_ne (o : ComposeOracle) (st : RWState) (sid S : String)
    (h : S ≠ sid) : alGet (rwCompose o st sid).1 S = alGet st S := by
  unfold rwCompose
  rcases hg : alGet st sid with _ | entry
  · simp only [hg]
  · simp only [hg]
    rcases hc : entry.chart with _ | chart
    · simp only [hc]
    · rcases hi : entry.insights with _ | ins
      · simp only [hc, hi]
      · simp only [hc, hi]
        split
        · exact alGet_alDel_of_ne _ _ _ h
        · exact alGet_alDel_of_ne _ _ _ h

theorem step_other_session (o : ComposeOracle) (st : RWState) (ev : RWEvent) (S : String)
    (h : S ≠ ev.sessionId) :
    alGet (reportWriterStep o st ev).1 S = alGet st S
      ∧ emittedCount S (reportWriterStep o st ev).2.1 = 0 := by
  constructor
  · show alGet (rwCompose o (rwStore (rwInit st ev.sessionId) ev) ev.sessionId).1 S = _
    rw [alGet_rwCompose_of_ne o _ _ _ h, alGet_rwStore_of_ne _ _ _ h,
      alGet_rwInit_of_ne _ _ _ h]
  · apply emittedCount_eq_zero
    intro r hr
    have hsid : r.sessionId = ev.sessionId :=
      rwCompose_out_sessionId o (rwStore (rwInit st ev.sessionId) ev) ev.sessionId r hr
    rw [hsid]
    exact fun hh => h hh.symm

theorem alGet_rwInit_self (st : RWState) (sid : String) :
    alGet (rwInit st sid) sid
      = Option.some ((alGet st sid).getD ⟨Option.none, Option.none, .bool false⟩) := by
  unfold rwInit
  rcases hg : alGet st sid with _ | e₀
  · simp [hg, alGet_alSet_self]
  · simp [hg]

/-- Invariant propagation through one handler invocation, for the
session the event belongs to: each publication consumes one stored chart
and one stored insights, and a fresh chart/insights store is accounted
against the event itself. -/
theorem step_invariant_self (o : ComposeOracle) (st : RWState) (ev : RWEvent)
    (c i e : Nat)
    (hc : e + entryChartFlag st ev.sessionId ≤ c)
    (hi : e + entryInsightsFlag st ev.sessionId ≤ i) :
    (e + emittedCount ev.sessionId (reportWriterStep o st ev).2.1)
        + entryChartFlag (reportWriterStep o st ev).1 ev.sessionId
        ≤ c + chartCount ev.sessionId [ev]
      ∧ (e + emittedCount ev.sessionId (reportWriterStep o st ev).2.1)
          + entryInsightsFlag (reportWriterStep o st ev).1 ev.sessionId
          ≤ i + insightsCount ev.sessionId [ev] := by
  cases ev with
  | chartReady sid cs =>
    simp only [RWEvent.sessionId] at hc hi ⊢
    have hInit := alGet_rwInit_self st sid
    set e₁ := (alGet st sid).getD ⟨Option.none, Option.none, .bool false⟩ with he₁
    have hStore : alGet (rwStore (rwInit st sid) (.chartReady sid cs)) sid
        = Option.some { e₁ with chart := Option.some (cs.getD .unknown) } := by
      simp only [rwStore]
      rw [alGet_alUpdate_self, hInit]
      rfl
    have hcc : chartCount sid [RWEvent.chartReady sid cs] = 1 := by
      simp [chartCount]
    have hic : insightsCount sid [RWEvent.chartReady sid cs] = 0 := by
      simp [insightsCount]
    rcases he : e₁.insights with _ | ins₀
    · have hComp : reportWriterStep o st (.chartReady sid cs)
          = (rwStore (rwInit st sid) (.chartReady sid cs), [], 0) := by
        simp only [reportWriterStep, RWEvent.sessionId]
        unfold rwCompose
        rw [hStore]
        simp [he]
      rw [hComp, hcc, hic]
      have h₁ : entryChartFlag (rwStore (rwInit st sid) (.chartReady sid cs)) sid = 1 := by
        simp [entryChartFlag, hStore, chartFlagO]
      have h₂ : entryInsightsFlag (rwStore (rwInit st sid) (.chartReady sid cs)) sid = 0 := by
        simp [entryInsightsFlag, hStore, insightsFlagO, he]
      rw [h₁, h₂]
      simp only [emittedCount, List.filter_nil, List.length_nil]
      omega
    · have hSome : alGet st sid = Option.some e₁ := by
        rcases hg : alGet st sid with _ | e₀
        · exfalso
          rw [he₁, hg] at he
          simp at he
        · rw [he₁, hg]
          rfl
      have hIF : entryInsightsFlag st sid = 1 := by
        simp [entryInsightsFlag, hSome, insightsFlagO, he]
      have hstep : (reportWriterStep o st (.chartReady sid cs)).1
            = alDel (rwStore (rwInit st sid) (.chartReady sid cs)) sid
          ∧ emittedCount sid (reportWriterStep o st (.chartReady sid cs)).2.1 = 1 := by
        simp only [reportWriterStep, RWEvent.sessionId]
        unfold rwCompose
        rw [hStore]
        simp only [he]
        split
        · exact ⟨rfl, by simp [emittedCount]⟩
        · exact ⟨rfl, by simp [emittedCount, composeNarrative_sessionId]⟩
      have h₁ : entryChartFlag (alDel (rwStore (rwInit st sid) (.chartReady sid cs)) sid) sid
          = 0 := by
        simp [entryChartFlag, alGet_alDel_self, chartFlagO]
      have h₂ : entryInsightsFlag (alDel (rwStore (rwInit st sid) (.chartReady sid cs)) sid) sid
          = 0 := by
        simp [entryInsightsFlag, alGet_alDel_self, insightsFlagO]
      rw [hstep.1, hstep.2, hcc, hic, h₁, h₂]
      rw [hIF] at hi
      omega
  | insightsReady sid ins =>
    simp only [RWEvent.sessionId] at hc hi ⊢
    have hInit := alGet_rwInit_self st sid
    set e₁ := (alGet st sid).getD ⟨Option.none, Option.none, .bool false⟩ with he₁
    have hStore : alGet (rwStore (rwInit st sid) (.insightsReady sid ins)) sid
        = Option.some { e₁ with
                        insights := Option.some ins,
                        isRejected := (ins.isRejected).getD (.bool false) } := by
      simp only [rwStore]
      rw [alGet_alUpdate_self, hInit]
      rfl
    have hcc : chartCount sid [RWEvent.insightsReady sid ins] = 0 := by
      simp [chartCount]
    have hic : insightsCount sid [RWEvent.insightsReady sid ins] = 1 := by
      simp [insightsCount]
    rcases he : e₁.chart with _ | chart₀
    · have hComp : reportWriterStep o st (.insightsReady sid ins)
          = (rwStore (rwInit st sid) (.insightsReady sid ins), [], 0) := by
        simp only [reportWriterStep, RWEvent.sessionId]
        unfold rwCompose
        rw [hStore]
        simp [he]
      rw [hComp, hcc, hic]
      have h₁ : entryChartFlag (rwStore (rwInit st sid) (.insightsReady sid ins)) sid = 0 := by
        simp [entryChartFlag, hStore, chartFlagO, he]
      have h₂ : entryInsightsFlag (rwStore (rwInit st sid) (.insightsReady sid ins)) sid
          = 1 := by
        simp [entryInsightsFlag, hStore, insightsFlagO]
      rw [h₁, h₂]
      simp only [emittedCount, List.filter_nil, List.length_nil]
      omega
    · have hSome : alGet st sid = Option.some e₁ := by
        rcases hg : alGet st sid with _ | e₀
        · exfalso
          rw [he₁, hg] at he
          simp at he
        · rw [he₁, hg]
          rfl
      have hCF : entryChartFlag st sid = 1 := by
        simp [entryChartFlag, hSome, chartFlagO, he]
      have hstep : (reportWriterStep o st (.insightsReady sid ins)).1
            = alDel (rwStore (rwInit st sid) (.insightsReady sid ins)) sid
          ∧ emittedCount sid (reportWriterStep o st (.insightsReady sid ins)).2.1 = 1 := by
        simp only [reportWriterStep, RWEvent.sessionId]
        unfold rwCompose
        rw [hStore]
        simp only [he]
        split
        · exact ⟨rfl, by simp [emittedCount]⟩
        · exact ⟨rfl, by simp [emittedCount, composeNarrative_sessionId]⟩
      have h₁ : entryChartFlag
          (alDel (rwStore (rwInit st sid) (.insightsReady sid ins)) sid) sid = 0 := by
        simp [entryChartFlag, alGet_alDel_self, chartFlagO]
      have h₂ : entryInsightsFlag
          (alDel (rwStore (rwInit st sid) (.insightsReady sid ins)) sid) sid = 0 := by
        simp [entryInsightsFlag, alGet_alDel_self, insightsFlagO]
      rw [hstep.1, hstep.2, hcc, hic, h₁, h₂]
      rw [hCF] at hc
      omega

/-- Invariant propagation through one handler invocation, for an
arbitrary session. -/
theorem step_invariant (o : ComposeOracle) (st : RWState) (ev : RWEvent) (S : String)
    (c i e : Nat)
    (hc : e + entryChartFlag st S ≤ c)
    (hi : e + entryInsightsFlag st S ≤ i) :
    (e + emittedCount S (reportWriterStep o st ev).2.1)
        + entryChartFlag (reportWriterStep o st ev).1 S ≤ c + chartCount S [ev]
      ∧ (e + emittedCount S (reportWriterStep o st ev).2.1)
          + entryInsightsFlag (reportWriterStep o st ev).1 S ≤ i + insightsCount S [ev] := by
  by_cases hS : S = ev.sessionId
  · subst hS
    exact step_invariant_self o st ev c i e hc hi
  · obtain ⟨h₁, h₂⟩ := step_other_session o st ev S hS
    rw [h₂]
    simp only [entryChartFlag, entryInsightsFlag, h₁] at hc hi ⊢
    constructor <;> omega

/-- The per-session invariant, pushed through a whole trace. -/
theorem runRWFrom_invariant (o : ComposeOracle) (S : String) :
    ∀ (events : List RWEvent) (st : RWState) (c i e : Nat),
      e + entryChartFlag st S ≤ c →
      e + entryInsightsFlag st S ≤ i →
      ((e + emittedCount S (runRWFrom o st events).2.1)
          + entryChartFlag (runRWFrom o st events).1 S ≤ c + chartCount S events
        ∧ (e + emittedCount S (runRWFrom o st events).2.1)
            + entryInsightsFlag (runRWFrom o st events).1 S ≤ i + insightsCount S events) := by
  intro events
  induction events with
  | nil =>
    intro st c i e hc hi
    simp only [runRWFrom, emittedCount, List.filter_nil, List.length_nil, chartCount,
      insightsCount, Nat.add_zero]
    exact ⟨hc, hi⟩
  | cons ev rest ih =>
    intro st c i e hc hi
    have hstep := step_invariant o st ev S c i e hc hi
    have hrest := ih (reportWriterStep o st ev).1
      (c + chartCount S [ev]) (i + insightsCount S [ev])
      (e + emittedCount S (reportWriterStep o st ev).2.1) hstep.1 hstep.2
    simp only [runRWFrom]
    rw [emittedCount_append, chartCount_cons, insightsCount_cons]
    constructor
    · have := hrest.1
      omega
    · have := hrest.2
      omega

theorem rwCompose_emits_deletes (o : ComposeOracle) (st : RWState) (sid : String)
    (h : (rwCompose o st sid).2.1 ≠ []) :
    alGet (rwCompose o st sid).1 sid = Option.none := by
  unfold rwCompose at h ⊢
  rcases hg : alGet st sid with _ | entry
  · simp only [hg] at h
    exact absurd rfl h
  · simp only [hg] at h ⊢
    rcases hc : entry.chart with _ | chart
    · simp only [hc] at h
      exact absurd rfl h
    · rcases hi : entry.insights with _ | ins
      · simp only [hc, hi] at h
        exact absurd rfl h
      · simp only [hc, hi]
        split
        · exact alGet_alDel_self _ _
        · exact alGet_alDel_self _ _

/-- C1: over every possible sequence of received spores, the Response
Composer publishes a final response for session `S` at most
`min(chart-ready(S) events, insights-ready(S) events)` times — hence at
most once when, as in the pipeline, each producer sends at most one unit
per session, and never before both a chart-ready and an insights-ready
for `S` have been received (the bound applies to every prefix of the
trace, as the statement is universally quantified over traces); and
whenever an invocation publishes, the per-session accumulator entry is
deleted in the resulting state. -/
theorem composer_join_correct :
    ∀ (o : ComposeOracle) (events : List RWEvent) (S : String),
      (emittedCount S (runRW o events).2.1 ≤ chartCount S events
        ∧ emittedCount S (runRW o events).2.1 ≤ insightsCount S events)
      ∧ (chartCount S events ≤ 1 → insightsCount S events ≤ 1 →
          emittedCount S (runRW o events).2.1 ≤ 1)
      ∧ (∀ (st : RWState) (ev : RWEvent),
          (reportWriterStep o st ev).2.1 ≠ [] →
          alGet (reportWriterStep o st ev).1 ev.sessionId = Option.none) := by
  intro o events S
  have hinv := runRWFrom_invariant o S events [] 0 0 0
    (by simp [entryChartFlag, alGet_nil, chartFlagO])
    (by simp [entryInsightsFlag, alGet_nil, insightsFlagO])
  refine ⟨⟨?_, ?_⟩, ?_, ?_⟩
  · have := hinv.1
    simp only [runRW]
    omega
  · have := hinv.2
    simp only [runRW]
    omega
  · intro h1 h2
    have := hinv.1
    simp only [runRW]
    omega
  · intro st ev h
    exact rwCompose_emits_deletes o _ _ h

/-- Witness for C1: a trace with one chart-ready and one insights-ready
for session `"s"`, and a composing step that deletes the accumulator
entry. -/
theorem composer_join_correct_witness :
    emittedCount "s" (runRW ⟨Option.none, Option.none⟩
        [ .chartReady "s" Option.none
        , .insightsReady "s" ⟨[], [], [], "s", Option.none, Option.none⟩ ]).2.1 ≤ 1
      ∧ alGet (reportWriterStep ⟨Option.none, Option.none⟩
            [("s", ⟨Option.some .unknown, Option.none, .bool false⟩)]
            (.insightsReady "s" ⟨[], [], [], "s", Option.none, Option.none⟩)).1
          ((RWEvent.insightsReady "s" ⟨[], [], [], "s", Option.none, Option.none⟩).sessionId)
        = Option.none :=
  ⟨(composer_join_correct ⟨Option.none, Option.none⟩
      [ .chartReady "s" Option.none
      , .insightsReady "s" ⟨[], [], [], "s", Option.none, Option.none⟩ ] "s").2.1
      (by decide) (by decide),
   (composer_join_correct ⟨Option.none, Option.none⟩
      [ .chartReady "s" Option.none
      , .insightsReady "s" ⟨[], [], [], "s", Option.none, Option.none⟩ ] "s").2.2
      [("s", ⟨Option.some .unknown, Option.none, .bool false⟩)]
      (.insightsReady "s" ⟨[], [], [], "s", Option.none, Option.none⟩) (by decide)⟩

/-- Witness for C6 at a concrete request, HTTP 500 reply and transport
failure. -/
theorem query_failure_tagged_empty_result_witness :
    analyticsHandler
        { isRejected := .bool false, rejectionReason := .none
        , cubeRecommendation := "RadiologyAudits", metrics := ["count"], dimensions := []
        , filters := [], timeRange := Option.none, partFamilies := []
        , analysisType := "summary", userMessage := "q", sessionId := "s1" }
        (.statusErr 500 "boom") 0
        = [errorDataReady "s1" ("Cube.js query failed: " ++ "boom") "query_error"] :=
  (query_failure_tagged_empty_result
    { isRejected := .bool false, rejectionReason := .none
    , cubeRecommendation := "RadiologyAudits", metrics := ["count"], dimensions := []
    , filters := [], timeRange := Option.none, partFamilies := []
    , analysisType := "summary", userMessage := "q", sessionId := "s1" }
    0 500 "boom" "unused" (by decide)).1

end MedicalData
